import Mathlib

/-!
Verification of the device-shadow synchronization engine of blink2mqtt
(src/src/blink2mqtt), against its natural-language specification.

The Python sources are shallowly embedded: Python values that flow through
the shadow store (strings, ints, bools, None, lists, tuples, dicts) become
the inductive type `Val`; the in-memory stores `self.devices` / `self.states`
become association lists keyed by device-id strings; fallible operations
return `Except`; effectful methods become functions in a state-trace-except
monad whose events record MQTT publishes, external setter invocations and
sleeps.  The deepmerge library's `Merger` configured as
`Merger([(dict, "merge"), (list, "append_unique"), (set, "union")],
["override"], ["override"])` is embedded by `mergeVal`.

Python dict semantics modelled: iteration and merge preserve insertion
order; assignment to an existing key keeps its position; assignment to a
fresh key appends.  The embedding notes where CPython-level aliasing
matters: deepmerge's dict strategy `strategy_merge` mutates its `base`
argument in place and returns it, which makes the `prev == new` comparison
in `upsert_device` / `upsert_state` degenerate for pre-existing entries
(see `upsert_device`).
-/

/-- Python values appearing in the shadow store.  `vtup` models Python
tuples, which the store's invariant checker rejects.  Dict entries keep
insertion order; keys are arbitrary (hashable) values as in Python. -/
inductive Val where
  | vstr (s : String)
  | vint (n : Int)
  | vbool (b : Bool)
  | vnone
  | vlist (xs : List Val)
  | vtup (xs : List Val)
  | vdict (entries : List (Val × Val))

/-- True exactly for Python tuples (`isinstance(x, tuple)`). -/
def isTup : Val → Bool
  | .vtup _ => true
  | _ => false

/-- True exactly for Python dicts (`isinstance(x, dict)`). -/
def isDict : Val → Bool
  | .vdict _ => true
  | _ => false

mutual
/-- Structural equality of embedded Python values, modelling `==` on the
scalar/list/dict data that flows through the store (dict comparison is done
entry-by-entry in insertion order; the stores built by this program keep
unique string keys, for which this agrees with Python's order-insensitive
dict equality). -/
def valBeq : Val → Val → Bool
  | .vstr a, .vstr b => a == b
  | .vint a, .vint b => a == b
  | .vbool a, .vbool b => a == b
  | .vnone, .vnone => true
  | .vlist a, .vlist b => valListBeq a b
  | .vtup a, .vtup b => valListBeq a b
  | .vdict a, .vdict b => valEntriesBeq a b
  | _, _ => false

/-- Element-wise equality of value lists. -/
def valListBeq : List Val → List Val → Bool
  | [], [] => true
  | x :: xs, y :: ys => valBeq x y && valListBeq xs ys
  | _, _ => false

/-- Entry-wise equality of dict entry lists. -/
def valEntriesBeq : List (Val × Val) → List (Val × Val) → Bool
  | [], [] => true
  | (k1, v1) :: xs, (k2, v2) :: ys => valBeq k1 k2 && valBeq v1 v2 && valEntriesBeq xs ys
  | _, _ => false
end

/-- Python truthiness (`bool(x)`) for embedded values. -/
def pyTruthy : Val → Bool
  | .vstr s => !(s == "")
  | .vint n => !(n == 0)
  | .vbool b => b
  | .vnone => false
  | .vlist xs => !xs.isEmpty
  | .vtup xs => !xs.isEmpty
  | .vdict es => !es.isEmpty

/-- Dict lookup by key equality (first matching entry), modelling
`base[k]` / `k in base` on a dict whose entries are listed in insertion
order. -/
def lookupVal (k : Val) : List (Val × Val) → Option Val
  | [] => none
  | (k2, v) :: es => if valBeq k k2 then some v else lookupVal k es

/-- Replace the value of the first entry whose key equals `k`, keeping the
original key object and its position (Python `base[k] = v` on an existing
key). -/
def replaceKey : List (Val × Val) → Val → Val → List (Val × Val)
  | [], _, _ => []
  | (k2, v2) :: es, k, newv =>
    if valBeq k k2 then (k2, newv) :: es else (k2, v2) :: replaceKey es k newv

/-- Python `d[k] = v`: replace in place when the key exists, append when
fresh. -/
def dictSet (es : List (Val × Val)) (k v : Val) : List (Val × Val) :=
  if (lookupVal k es).isSome then replaceKey es k v else es ++ [(k, v)]

/-- Membership of a value in a list by `==` (used by deepmerge's
`append_unique`, which filters `nxt` against the elements of `base`). -/
def pyMem (x : Val) (xs : List Val) : Bool :=
  xs.any (fun y => valBeq x y)

/-- deepmerge `ListStrategies.strategy_append_unique`: the result is
`base + [item for item in nxt if item not in base]` (a fresh list; `base`
is not mutated). -/
def appendUnique (base nxt : List Val) : List Val :=
  base ++ nxt.filter (fun item => !(pyMem item base))

mutual
/-- deepmerge `Merger.merge` with the configuration used by
`upsert_device` / `upsert_state`:
dicts merge key-by-key (`strategy_merge`), lists merge with
`append_unique`, every other combination (type conflict or unregistered
scalar type) resolves by override, i.e. the new value wins.  The `set`
strategy of the Python `Merger` is never exercised by this program (no
sets flow through the store) and is not modelled.  Note that
`strategy_merge` mutates its `base` dict in place and returns it; this
pure function computes the resulting value. -/
def mergeVal : Val → Val → Val
  | .vdict b, .vdict n => .vdict (mergeEntries b n)
  | .vlist b, .vlist n => .vlist (appendUnique b n)
  | _, n => n

/-- `strategy_merge`'s loop `for k, v in nxt.items()` over the entries of
the new dict, threaded left to right; each step is `base[k] = v` when
`k not in base` and `base[k] = merge(base[k], v)` otherwise. -/
def mergeEntries : List (Val × Val) → List (Val × Val) → List (Val × Val)
  | b, [] => b
  | b, (k, v) :: rest =>
    mergeEntries
      (match lookupVal k b with
       | some old => replaceKey b k (mergeVal old v)
       | none => b ++ [(k, v)])
      rest
end

/-- Simplified rendering of a Python value inside an f-string (only used
to build the diagnostic path strings of `_assert_no_tuples`, whose content
no theorem depends on). -/
def keyStr : Val → String
  | .vstr s => s
  | .vint n => toString n
  | .vbool b => if b then "True" else "False"
  | .vnone => "None"
  | _ => "<obj>"

mutual
/-- `helpers.py _assert_no_tuples`: raise `TypeError` when the data is a
tuple, recurse into dict entries (rejecting tuple keys, recursing into
values) and into list elements.  Errors are modelled as `Except.error`
with the diagnostic message. -/
def assertNoTuples (data : Val) (path : String) : Except String Unit :=
  match data with
  | .vtup _ => .error ("Found tuple at " ++ path)
  | .vdict es => assertNoTuplesEntries es path
  | .vlist xs => assertNoTuplesList xs path 0
  | _ => .ok ()

/-- The `for key, value in data.items()` loop of `_assert_no_tuples`. -/
def assertNoTuplesEntries (es : List (Val × Val)) (path : String) : Except String Unit :=
  match es with
  | [] => .ok ()
  | (k, v) :: rest =>
    if isTup k then .error ("Found tuple key at " ++ path)
    else
      match assertNoTuples v (path ++ "." ++ keyStr k) with
      | .error e => .error e
      | .ok _ => assertNoTuplesEntries rest path

/-- The `for idx, value in enumerate(data)` loop of `_assert_no_tuples`. -/
def assertNoTuplesList (xs : List Val) (path : String) (i : Nat) : Except String Unit :=
  match xs with
  | [] => .ok ()
  | x :: rest =>
    match assertNoTuples x (path ++ "[" ++ toString i ++ "]") with
    | .error e => .error e
    | .ok _ => assertNoTuplesList rest path (i + 1)
end

mutual
/-- Specification-side predicate: the tree contains a Python tuple
anywhere — at the top, as a dict key, inside a dict value, or inside a
list element, at any depth. -/
def containsTuple : Val → Bool
  | .vtup _ => true
  | .vdict es => entriesHaveTuple es
  | .vlist xs => listHasTuple xs
  | _ => false

/-- Some dict entry has a tuple key or a tuple-containing value. -/
def entriesHaveTuple : List (Val × Val) → Bool
  | [] => false
  | (k, v) :: rest => isTup k || containsTuple v || entriesHaveTuple rest

/-- Some list element contains a tuple. -/
def listHasTuple : List Val → Bool
  | [] => false
  | x :: rest => containsTuple x || listHasTuple rest
end

/-- The in-memory shadow stores `self.devices` and `self.states`: maps
from device-id string to a tree, in insertion order. -/
abbrev Store := List (String × Val)

/-- `store.get(k)` / `k in store`. -/
def storeGet (st : Store) (k : String) : Option Val :=
  match st with
  | [] => none
  | (k2, v) :: rest => if k == k2 then some v else storeGet rest k

/-- `store[k] = v` (replace in place or append). -/
def storeSet (st : Store) (k : String) (v : Val) : Store :=
  match st with
  | [] => [(k, v)]
  | (k2, v2) :: rest => if k == k2 then (k, v) :: rest else (k2, v2) :: storeSet rest k v

/-- `store.setdefault(k, {})` when the program only needs the resulting
store (entry added with an empty dict when missing). -/
def storeSetdefault (st : Store) (k : String) : Store :=
  match storeGet st k with
  | some _ => st
  | none => st ++ [(k, Val.vdict [])]

/-- The shared per-section loop body of `upsert_device` / `upsert_state`:
for each keyword section, run the pre-merge tuple assertion on the data,
merge `{section: data}` into the current tree via the deepmerge `Merger`,
run the post-merge tuple assertion on the merged tree, and store it.  An
uncaught `TypeError` aborts the loop; the error carries the store as it
stood when the exception was raised (earlier sections, already merged,
remain). -/
def upsertSections (st : Store) (device_id : String) (kwargs : List (String × Val)) (tag : String) :
    Except (String × Store) Store :=
  match kwargs with
  | [] => .ok st
  | (sec, data) :: rest =>
    match assertNoTuples data (tag ++ device_id ++ "]." ++ sec) with
    | .error e => .error (e, st)
    | .ok _ =>
      let base := (storeGet st device_id).getD (Val.vdict [])
      let merged := mergeVal base (Val.vdict [(Val.vstr sec, data)])
      match assertNoTuples merged (tag ++ device_id ++ "]." ++ sec ++ " (post-merge)") with
      | .error e => .error (e, st)
      | .ok _ => upsertSections (storeSet st device_id merged) device_id rest tag

/-- The `changed` value computed by `False if prev == new else True` in
`upsert_device` / `upsert_state`, under CPython semantics.
`prev = self.devices.get(device_id, {})` binds either the stored dict
object itself (when the device exists) or a fresh empty dict.  deepmerge's
`strategy_merge` mutates its base dict in place and returns the same
object, and the loop re-reads `self.devices.get(device_id, {})`, so:
when the device pre-existed with a dict tree, `prev` IS the merged object
and `prev == new` is identically true; when the pre-existing tree is not a
dict, the first merge overrides it with a fresh dict and `prev` (the old
object, unmutated) is compared structurally with the final tree; when the
device did not exist, `prev` is a fresh `{}` never passed to the merger
and is compared structurally with the final tree. -/
def upsertChanged (prev : Option Val) (kwargs : List (String × Val)) (newTree : Val) : Bool :=
  match kwargs with
  | [] => false
  | _ :: _ =>
    match prev with
    | some (Val.vdict _) => false
    | some pv => !(valBeq pv newTree)
    | none => !(valBeq newTree (Val.vdict []))

/-- `helpers.py upsert_device(device_id, **kwargs) -> bool`: merge each
keyword section into `self.devices[device_id]` under tuple assertions,
then report `False if prev == new else True` (see `upsertChanged` for the
CPython aliasing semantics of that comparison). -/
def upsert_device (devices : Store) (device_id : String) (kwargs : List (String × Val)) :
    Except (String × Store) (Store × Bool) :=
  let prev := storeGet devices device_id
  match upsertSections devices device_id kwargs "device[" with
  | .error e => .error e
  | .ok newStore =>
    let newTree := (storeGet newStore device_id).getD (Val.vdict [])
    .ok (newStore, upsertChanged prev kwargs newTree)

/-- `helpers.py upsert_state(device_id, **kwargs) -> bool`: identical to
`upsert_device` but over `self.states`. -/
def upsert_state (states : Store) (device_id : String) (kwargs : List (String × Val)) :
    Except (String × Store) (Store × Bool) :=
  let prev := storeGet states device_id
  match upsertSections states device_id kwargs "state[" with
  | .error e => .error e
  | .ok newStore =>
    let newTree := (storeGet newStore device_id).getD (Val.vdict [])
    .ok (newStore, upsertChanged prev kwargs newTree)

/-- Boolean success test for `Except`. -/
def exOk {ε α : Type} : Except ε α → Bool
  | .ok _ => true
  | .error _ => false

/-- Every tree stored for every device is tuple-free. -/
def storeTupleFree (st : Store) : Bool :=
  st.all (fun kv => !(containsTuple kv.2))

mutual
/-- The tuple assertion succeeds exactly on tuple-free trees (for every
diagnostic path). -/
theorem assertNoTuples_isOk (v : Val) (p : String) :
    exOk (assertNoTuples v p) = !(containsTuple v) := by
  cases v with
  | vtup xs => simp [assertNoTuples, containsTuple, exOk]
  | vdict es =>
    simpa [assertNoTuples, containsTuple] using assertNoTuplesEntries_isOk es p
  | vlist xs =>
    simpa [assertNoTuples, containsTuple] using assertNoTuplesList_isOk xs p 0
  | vstr s => simp [assertNoTuples, containsTuple, exOk]
  | vint n => simp [assertNoTuples, containsTuple, exOk]
  | vbool b => simp [assertNoTuples, containsTuple, exOk]
  | vnone => simp [assertNoTuples, containsTuple, exOk]

/-- Entry-loop analogue of `assertNoTuples_isOk`. -/
theorem assertNoTuplesEntries_isOk (es : List (Val × Val)) (p : String) :
    exOk (assertNoTuplesEntries es p) = !(entriesHaveTuple es) := by
  match es with
  | [] => simp [assertNoTuplesEntries, entriesHaveTuple, exOk]
  | (k, v) :: rest =>
    rw [assertNoTuplesEntries, entriesHaveTuple]
    by_cases hk : isTup k
    · simp [hk, exOk]
    · have hv := assertNoTuples_isOk v (p ++ "." ++ keyStr k)
      cases hav : assertNoTuples v (p ++ "." ++ keyStr k) with
      | error e =>
        rw [hav] at hv
        simp [exOk] at hv
        simp [hk, hv, exOk]
      | ok u =>
        rw [hav] at hv
        simp [exOk] at hv
        simp [hk, hv, assertNoTuplesEntries_isOk rest p]

/-- List-loop analogue of `assertNoTuples_isOk`. -/
theorem assertNoTuplesList_isOk (xs : List Val) (p : String) (i : Nat) :
    exOk (assertNoTuplesList xs p i) = !(listHasTuple xs) := by
  match xs with
  | [] => simp [assertNoTuplesList, listHasTuple, exOk]
  | x :: rest =>
    rw [assertNoTuplesList, listHasTuple]
    have hx := assertNoTuples_isOk x (p ++ "[" ++ toString i ++ "]")
    cases hax : assertNoTuples x (p ++ "[" ++ toString i ++ "]") with
    | error e =>
      rw [hax] at hx
      simp [exOk] at hx
      simp [hx, exOk]
    | ok u =>
      rw [hax] at hx
      simp [exOk] at hx
      simp [hx, assertNoTuplesList_isOk rest p (i + 1)]
end

/-- Appending entry lists distributes over the tuple search. -/
theorem entriesHaveTuple_append (a b : List (Val × Val)) :
    entriesHaveTuple (a ++ b) = (entriesHaveTuple a || entriesHaveTuple b) := by
  induction a with
  | nil => simp [entriesHaveTuple]
  | cons kv rest ih =>
    obtain ⟨k, v⟩ := kv
    simp [entriesHaveTuple, ih, Bool.or_assoc]

/-- Appending value lists distributes over the tuple search. -/
theorem listHasTuple_append (a b : List Val) :
    listHasTuple (a ++ b) = (listHasTuple a || listHasTuple b) := by
  induction a with
  | nil => simp [listHasTuple]
  | cons x rest ih => simp [listHasTuple, ih, Bool.or_assoc]

/-- Filtering a tuple-free list keeps it tuple-free. -/
theorem listHasTuple_filter (f : Val → Bool) (xs : List Val) (h : listHasTuple xs = false) :
    listHasTuple (xs.filter f) = false := by
  induction xs with
  | nil => simp [listHasTuple]
  | cons x rest ih =>
    rw [listHasTuple] at h
    simp only [Bool.or_eq_false_iff] at h
    by_cases hf : f x
    · simp [List.filter, hf, listHasTuple, h.1, ih h.2]
    · simp [List.filter, hf, ih h.2]

/-- A value looked up in a tuple-free dict is tuple-free. -/
theorem lookupVal_tupleFree (k : Val) (es : List (Val × Val)) (old : Val)
    (hes : entriesHaveTuple es = false) (h : lookupVal k es = some old) :
    containsTuple old = false := by
  induction es with
  | nil => simp [lookupVal] at h
  | cons kv rest ih =>
    obtain ⟨k2, v2⟩ := kv
    rw [entriesHaveTuple] at hes
    simp only [Bool.or_eq_false_iff] at hes
    rw [lookupVal] at h
    by_cases hk : valBeq k k2
    · simp [hk] at h
      exact h ▸ hes.1.2
    · simp [hk] at h
      exact ih hes.2 h

/-- Replacing a key's value with a tuple-free value keeps the dict
tuple-free. -/
theorem replaceKey_tupleFree (es : List (Val × Val)) (k nv : Val)
    (hes : entriesHaveTuple es = false) (hnv : containsTuple nv = false) :
    entriesHaveTuple (replaceKey es k nv) = false := by
  induction es with
  | nil => simp [replaceKey, entriesHaveTuple]
  | cons kv rest ih =>
    obtain ⟨k2, v2⟩ := kv
    rw [entriesHaveTuple] at hes
    simp only [Bool.or_eq_false_iff] at hes
    by_cases hk : valBeq k k2
    · simp [replaceKey, hk, entriesHaveTuple, hes.1.1, hnv, hes.2]
    · simp [replaceKey, hk, entriesHaveTuple, hes.1.1, hes.1.2, ih hes.2]

mutual
/-- Merging tuple-free trees yields a tuple-free tree. -/
theorem mergeVal_tupleFree (a b : Val) (ha : containsTuple a = false)
    (hb : containsTuple b = false) : containsTuple (mergeVal a b) = false := by
  cases a with
  | vdict ea =>
    cases b with
    | vdict eb =>
      rw [containsTuple] at ha hb
      rw [mergeVal, containsTuple]
      exact mergeEntries_tupleFree ea eb ha hb
    | vstr s => simpa [mergeVal] using hb
    | vint n => simpa [mergeVal] using hb
    | vbool x => simpa [mergeVal] using hb
    | vnone => simpa [mergeVal] using hb
    | vlist xs => simpa [mergeVal] using hb
    | vtup xs => simpa [mergeVal] using hb
  | vlist xa =>
    cases b with
    | vlist xb =>
      rw [containsTuple] at ha hb
      rw [mergeVal, containsTuple, appendUnique, listHasTuple_append]
      simp [ha, listHasTuple_filter _ _ hb]
    | vstr s => simpa [mergeVal] using hb
    | vint n => simpa [mergeVal] using hb
    | vbool x => simpa [mergeVal] using hb
    | vnone => simpa [mergeVal] using hb
    | vdict es => simpa [mergeVal] using hb
    | vtup xs => simpa [mergeVal] using hb
  | vstr s => simpa [mergeVal] using hb
  | vint n => simpa [mergeVal] using hb
  | vbool x => simpa [mergeVal] using hb
  | vnone => simpa [mergeVal] using hb
  | vtup xs => simpa [mergeVal] using hb

/-- The merge loop on tuple-free dicts keeps the base tuple-free. -/
theorem mergeEntries_tupleFree (b n : List (Val × Val))
    (hb : entriesHaveTuple b = false) (hn : entriesHaveTuple n = false) :
    entriesHaveTuple (mergeEntries b n) = false := by
  match n with
  | [] => rw [mergeEntries]; exact hb
  | (k, v) :: rest =>
    rw [entriesHaveTuple] at hn
    simp only [Bool.or_eq_false_iff] at hn
    rw [mergeEntries]
    refine mergeEntries_tupleFree _ rest ?_ hn.2
    cases hl : lookupVal k b with
    | some old =>
      have hold := lookupVal_tupleFree k b old hb hl
      simpa using replaceKey_tupleFree b k (mergeVal old v) hb
        (mergeVal_tupleFree old v hold hn.1.2)
    | none =>
      rw [entriesHaveTuple_append]
      simp [hb, entriesHaveTuple, hn.1.1, hn.1.2]
end

/-- A tree taken out of a tuple-free store is tuple-free. -/
theorem storeGet_tupleFree (st : Store) (d : String) (hst : storeTupleFree st = true) :
    containsTuple ((storeGet st d).getD (Val.vdict [])) = false := by
  induction st with
  | nil => simp [storeGet, containsTuple, entriesHaveTuple]
  | cons kv rest ih =>
    obtain ⟨k2, v2⟩ := kv
    rw [storeTupleFree] at hst
    simp only [List.all_cons, Bool.and_eq_true, Bool.not_eq_true'] at hst
    rw [storeGet]
    by_cases hk : d == k2
    · simp [hk, hst.1]
    · simp only [hk, if_false]
      exact ih (by simpa [storeTupleFree] using hst.2)

/-- Storing a tuple-free tree keeps the store tuple-free. -/
theorem storeSet_tupleFree (st : Store) (d : String) (v : Val)
    (hst : storeTupleFree st = true) (hv : containsTuple v = false) :
    storeTupleFree (storeSet st d v) = true := by
  induction st with
  | nil => simp [storeSet, storeTupleFree, hv]
  | cons kv rest ih =>
    obtain ⟨k2, v2⟩ := kv
    rw [storeTupleFree] at hst
    simp only [List.all_cons, Bool.and_eq_true, Bool.not_eq_true'] at hst
    rw [storeSet]
    by_cases hk : d == k2
    · simp [hk, storeTupleFree, hv, hst.2]
    · have := ih (by simpa [storeTupleFree] using hst.2)
      simp only [hk, if_false]
      simpa [storeTupleFree, hst.1] using this

/-- A keyword section whose data contains a tuple makes the upsert loop
fail, whatever the store holds. -/
theorem upsertSections_err_of_tuple (st : Store) (d : String) (kwargs : List (String × Val))
    (tag : String) (h : kwargs.any (fun kv => containsTuple kv.2) = true) :
    exOk (upsertSections st d kwargs tag) = false := by
  induction kwargs generalizing st with
  | nil => simp at h
  | cons kv rest ih =>
    obtain ⟨sec, data⟩ := kv
    simp only [List.any_cons, Bool.or_eq_true] at h
    rw [upsertSections]
    cases hpre : assertNoTuples data (tag ++ d ++ "]." ++ sec) with
    | error e => simp [hpre, exOk]
    | ok u =>
      have hok := assertNoTuples_isOk data (tag ++ d ++ "]." ++ sec)
      rw [hpre] at hok
      simp only [exOk] at hok
      have hdata : containsTuple data = false := by
        cases hd : containsTuple data
        · rfl
        · rw [hd] at hok; simp at hok
      have hrest : rest.any (fun kv => containsTuple kv.2) = true := by
        rcases h with h1 | h2
        · rw [hdata] at h1; simp at h1
        · exact h2
      cases hpost : assertNoTuples
          (mergeVal ((storeGet st d).getD (Val.vdict []))
            (Val.vdict [(Val.vstr sec, data)]))
          (tag ++ d ++ "]." ++ sec ++ " (post-merge)") with
      | error e => simp [hpre, hpost, exOk]
      | ok u2 =>
        simp only [hpre, hpost]
        exact ih _ hrest

/-- On a tuple-free store, tuple-free keyword data merges without error
and keeps the store tuple-free. -/
theorem upsertSections_ok_of_clean (st : Store) (d : String) (kwargs : List (String × Val))
    (tag : String) (hst : storeTupleFree st = true)
    (h : kwargs.all (fun kv => !(containsTuple kv.2)) = true) :
    ∃ st2, upsertSections st d kwargs tag = .ok st2 ∧ storeTupleFree st2 = true := by
  induction kwargs generalizing st with
  | nil => exact ⟨st, rfl, hst⟩
  | cons kv rest ih =>
    obtain ⟨sec, data⟩ := kv
    simp only [List.all_cons, Bool.and_eq_true, Bool.not_eq_true'] at h
    have hbase := storeGet_tupleFree st d hst
    have hnxt : containsTuple (Val.vdict [(Val.vstr sec, data)]) = false := by
      simp [containsTuple, entriesHaveTuple, isTup, h.1]
    have hmerged := mergeVal_tupleFree _ _ hbase hnxt
    have hpre := assertNoTuples_isOk data (tag ++ d ++ "]." ++ sec)
    rw [h.1] at hpre
    simp only [Bool.not_false] at hpre
    have hpost := assertNoTuples_isOk
      (mergeVal ((storeGet st d).getD (Val.vdict [])) (Val.vdict [(Val.vstr sec, data)]))
      (tag ++ d ++ "]." ++ sec ++ " (post-merge)")
    rw [hmerged] at hpost
    simp only [Bool.not_false] at hpost
    rw [upsertSections]
    cases hp : assertNoTuples data (tag ++ d ++ "]." ++ sec) with
    | error e => rw [hp] at hpre; simp [exOk] at hpre
    | ok u =>
      cases hq : assertNoTuples
          (mergeVal ((storeGet st d).getD (Val.vdict [])) (Val.vdict [(Val.vstr sec, data)]))
          (tag ++ d ++ "]." ++ sec ++ " (post-merge)") with
      | error e => rw [hq] at hpost; simp [exOk] at hpost
      | ok u2 =>
        simp only [hp, hq]
        exact ih (storeSet st d
          (mergeVal ((storeGet st d).getD (Val.vdict [])) (Val.vdict [(Val.vstr sec, data)])))
          (storeSet_tupleFree st d _ hst hmerged) h.2

/-- When the upsert loop aborts, the store it leaves behind is still
tuple-free when it started tuple-free: the malformed data never entered
the store. -/
theorem upsertSections_err_store_clean (st : Store) (d : String) (kwargs : List (String × Val))
    (tag : String) (e : String) (s2 : Store) (hst : storeTupleFree st = true)
    (h : upsertSections st d kwargs tag = .error (e, s2)) :
    storeTupleFree s2 = true := by
  induction kwargs generalizing st with
  | nil => simp [upsertSections] at h
  | cons kv rest ih =>
    obtain ⟨sec, data⟩ := kv
    rw [upsertSections] at h
    cases hpre : assertNoTuples data (tag ++ d ++ "]." ++ sec) with
    | error e2 =>
      rw [hpre] at h
      simp only [Except.error.injEq, Prod.mk.injEq] at h
      exact h.2 ▸ hst
    | ok u =>
      rw [hpre] at h
      simp only at h
      cases hpost : assertNoTuples
          (mergeVal ((storeGet st d).getD (Val.vdict [])) (Val.vdict [(Val.vstr sec, data)]))
          (tag ++ d ++ "]." ++ sec ++ " (post-merge)") with
      | error e2 =>
        rw [hpost] at h
        simp only [Except.error.injEq, Prod.mk.injEq] at h
        exact h.2 ▸ hst
      | ok u2 =>
        rw [hpost] at h
        have hmerged : containsTuple
            (mergeVal ((storeGet st d).getD (Val.vdict [])) (Val.vdict [(Val.vstr sec, data)]))
            = false := by
          have hx := assertNoTuples_isOk
            (mergeVal ((storeGet st d).getD (Val.vdict [])) (Val.vdict [(Val.vstr sec, data)]))
            (tag ++ d ++ "]." ++ sec ++ " (post-merge)")
          rw [hpost] at hx
          simp only [exOk] at hx
          cases hc : containsTuple
              (mergeVal ((storeGet st d).getD (Val.vdict [])) (Val.vdict [(Val.vstr sec, data)]))
          · rfl
          · rw [hc] at hx; simp at hx
        exact ih _ (storeSet_tupleFree st d _ hst hmerged) h

/-- C1: the spec claims `changed` is false exactly when the merge leaves the
stored tree byte-identical, and true whenever the merge alters it.  The code
violates the second half: for a device that already exists in the store,
`prev = self.devices.get(device_id, {})` binds the very dict object that
deepmerge's `strategy_merge` then mutates in place, so `prev == new` compares
the merged object with itself and `upsert_device` returns `changed=False`
even though the stored tree changed.  This theorem evaluates the embedded
code at the failing input: upserting `component={"name": "Test2"}` over a
stored `component={"name": "Test"}` rewrites the stored tree (the two trees
compare unequal) yet reports `changed=false`. -/
theorem C1_changed_false_on_update :
    upsert_device
        [("DEV001", Val.vdict [(Val.vstr "component", Val.vdict [(Val.vstr "name", Val.vstr "Test")])])]
        "DEV001"
        [("component", Val.vdict [(Val.vstr "name", Val.vstr "Test2")])]
      = Except.ok
          ([("DEV001", Val.vdict [(Val.vstr "component", Val.vdict [(Val.vstr "name", Val.vstr "Test2")])])],
            false)
    ∧ valBeq
        (Val.vdict [(Val.vstr "component", Val.vdict [(Val.vstr "name", Val.vstr "Test2")])])
        (Val.vdict [(Val.vstr "component", Val.vdict [(Val.vstr "name", Val.vstr "Test")])])
      = false := by
  exact ⟨rfl, rfl⟩

/-- C5: a tuple anywhere in the incoming partial tree (as a dict key or a
value, at any depth) makes `upsert_state` and `upsert_device` fail with the
structural `TypeError` raised by the pre-merge `_assert_no_tuples` check (the
error propagates out of the upsert path — the embedding returns it, nothing
catches or retries it); on a tuple-free store the failing store never
acquires the malformed data (it stays tuple-free); and tuple-free inputs
never raise. -/
theorem C5_tuple_rejection :
    (∀ (st : Store) (d : String) (kw : List (String × Val)),
      kw.any (fun kv => containsTuple kv.2) = true →
        exOk (upsert_state st d kw) = false ∧ exOk (upsert_device st d kw) = false)
    ∧ (∀ (st : Store) (d : String) (kw : List (String × Val)) (e : String) (s2 : Store),
      storeTupleFree st = true →
        (upsert_state st d kw = .error (e, s2) → storeTupleFree s2 = true)
        ∧ (upsert_device st d kw = .error (e, s2) → storeTupleFree s2 = true))
    ∧ (∀ (st : Store) (d : String) (kw : List (String × Val)),
      storeTupleFree st = true → kw.all (fun kv => !(containsTuple kv.2)) = true →
        exOk (upsert_state st d kw) = true ∧ exOk (upsert_device st d kw) = true) := by
  refine ⟨?_, ?_, ?_⟩
  · intro st d kw h
    constructor
    · have h1 := upsertSections_err_of_tuple st d kw "state[" h
      rw [upsert_state]
      cases hu : upsertSections st d kw "state[" with
      | ok s => rw [hu] at h1; simp [exOk] at h1
      | error p => simp [exOk]
    · have h1 := upsertSections_err_of_tuple st d kw "device[" h
      rw [upsert_device]
      cases hu : upsertSections st d kw "device[" with
      | ok s => rw [hu] at h1; simp [exOk] at h1
      | error p => simp [exOk]
  · intro st d kw e s2 hst
    constructor
    · intro h
      rw [upsert_state] at h
      cases hu : upsertSections st d kw "state[" with
      | ok s => rw [hu] at h; simp at h
      | error p =>
        rw [hu] at h
        simp only [Except.error.injEq] at h
        exact upsertSections_err_store_clean st d kw "state[" e s2 hst (h ▸ hu)
    · intro h
      rw [upsert_device] at h
      cases hu : upsertSections st d kw "device[" with
      | ok s => rw [hu] at h; simp at h
      | error p =>
        rw [hu] at h
        simp only [Except.error.injEq] at h
        exact upsertSections_err_store_clean st d kw "device[" e s2 hst (h ▸ hu)
  · intro st d kw hst h
    constructor
    · obtain ⟨s2, hs2, _⟩ := upsertSections_ok_of_clean st d kw "state[" hst h
      rw [upsert_state, hs2]
      simp [exOk]
    · obtain ⟨s2, hs2, _⟩ := upsertSections_ok_of_clean st d kw "device[" hst h
      rw [upsert_device, hs2]
      simp [exOk]

/-- C5 witness: the theorem applied at concrete inputs — a tuple-valued
section is rejected, and a tuple-free section on a tuple-free store
succeeds. -/
theorem C5_tuple_rejection_witness :
    ([(("sensor" : String), Val.vtup [])].any (fun kv => containsTuple kv.2) = true)
    ∧ exOk (upsert_state [] "D" [("sensor", Val.vtup [])]) = false
    ∧ storeTupleFree [("A", Val.vdict [])] = true
    ∧ ([(("sensor" : String), Val.vint 3)].all (fun kv => !(containsTuple kv.2)) = true)
    ∧ exOk (upsert_state [("A", Val.vdict [])] "D" [("sensor", Val.vint 3)]) = true := by
  refine ⟨rfl, ?_, rfl, rfl, ?_⟩
  · exact (C5_tuple_rejection.1 [] "D" [("sensor", Val.vtup [])] rfl).1
  · exact (C5_tuple_rejection.2.2 [("A", Val.vdict [])] "D" [("sensor", Val.vint 3)] rfl rfl).1

/-- Observable events of the service: MQTT publishes accepted by the paho
client, invocations of the external Blink setters, and sleeps. -/
inductive Ev where
  | pub (topic : String) (payload : Val)
  | setter (name : String) (arg : Val)
  | sleep (secs : Nat)
  | attempt (i : Nat)

/-- The mutable state of the `Blink2Mqtt` service object that the modelled
methods touch: the two shadow stores plus the scalar service fields
(`Base.__init__`).  `svcSlug` is the configured service prefix
(`self.service_slug`, spec: "a configurable service prefix", default
`blink2mqtt`), `discPrefix` the discovery prefix (default
`homeassistant`). -/
structure St where
  devices : Store
  states : Store
  svcSlug : String
  discPrefix : String
  discoveryComplete : Bool
  apiCalls : Nat
  lastApiCall : String
  rateLimited : Bool
  deviceInterval : Nat
  deviceListInterval : Nat
  snapshotInterval : Nat

/-- Result of running an effectful method: final state, emitted events, and
either a value or an uncaught Python exception (message). -/
inductive Out (α : Type) where
  | good (st : St) (evs : List Ev) (a : α)
  | bad (st : St) (evs : List Ev) (msg : String)

/-- State-trace-except monad for the embedded methods. -/
def StM (α : Type) := St → Out α

/-- Sequencing: events concatenate, exceptions abort. -/
def bindS {α β : Type} (m : StM α) (f : α → StM β) : StM β := fun st =>
  match m st with
  | .good st2 evs a =>
    match f a st2 with
    | .good st3 evs2 b => .good st3 (evs ++ evs2) b
    | .bad st3 evs2 msg => .bad st3 (evs ++ evs2) msg
  | .bad st2 evs msg => .bad st2 evs msg

/-- Return without effects. -/
def pureS {α : Type} (a : α) : StM α := fun st => .good st [] a

instance : Monad StM where
  pure := pureS
  bind := bindS

theorem stM_bind_def {α β : Type} (m : StM α) (f : α → StM β) :
    m >>= f = bindS m f := rfl

theorem stM_pure_def {α : Type} (a : α) : (pure a : StM α) = pureS a := rfl

/-- Read the service state. -/
def getSt : StM St := fun st => .good st [] st

/-- Replace the service state. -/
def setSt (st2 : St) : StM Unit := fun _ => .good st2 [] ()

/-- Record events. -/
def emit (evs : List Ev) : StM Unit := fun st => .good st evs ()

/-- Raise an uncaught Python exception. -/
def raiseErr {α : Type} (msg : String) : StM α := fun st => .bad st [] msg

/-- Lift a fallible pure computation (uncaught exceptions propagate). -/
def liftExc {α : Type} (x : Except String α) : StM α := fun st =>
  match x with
  | .ok a => .good st [] a
  | .error e => .bad st [] e

/-- Final state of a run (unchanged-so-far state when an exception was
raised). -/
def stateOf {α : Type} : Out α → St
  | .good st _ _ => st
  | .bad st _ _ => st

/-- Events of a run, including those emitted before an exception. -/
def traceOf {α : Type} : Out α → List Ev
  | .good _ evs _ => evs
  | .bad _ evs _ => evs

/-- Did the run finish without an uncaught exception? -/
def isGood {α : Type} : Out α → Bool
  | .good _ _ _ => true
  | .bad _ _ _ => false

/-- Python `container[key]` on an embedded value: `KeyError` for a missing
dict key, `TypeError` when the container is not a dict (the store only ever
subscripts dict-shaped containers with hashable keys). -/
def pySubscriptV (v : Val) (k : Val) : Except String Val :=
  match v with
  | .vdict es =>
    match lookupVal k es with
    | some x => .ok x
    | none => .error ("KeyError: " ++ keyStr k)
  | _ => .error "TypeError: object is not subscriptable"

/-- Python `container[k]` with a string literal key. -/
def pySubscript (v : Val) (k : String) : Except String Val :=
  pySubscriptV v (Val.vstr k)

/-- Python `d.get(key, default)`: `AttributeError` when the receiver is not
a dict. -/
def pyGetAttrD (v : Val) (k : String) (dflt : Val) : Except String Val :=
  match v with
  | .vdict es => .ok ((lookupVal (Val.vstr k) es).getD dflt)
  | _ => .error "AttributeError: get"

/-- Python `a or b` on already-computed values. -/
def pyOr (a b : Val) : Val :=
  if pyTruthy a then a else b

/-- `self.states[device_id]` / `self.devices[device_id]` (KeyError when
absent). -/
def storeSubscript (st : Store) (k : String) : Except String Val :=
  match storeGet st k with
  | some v => .ok v
  | none => .error ("KeyError: " ++ k)

/-- `mqtt.py mqtt_safe_publish`: publish to the broker, swallowing every
client-level publish exception.  All modelled call sites pass string (JSON
serialized) or scalar payloads, so the guard rejecting dict payloads that
contain a `component` key never fires.  paho raises `ValueError` for an
empty or non-string topic and `mqtt_safe_publish` catches it, so those
calls publish nothing. -/
def mqttSafePublishVal (topic : Val) (payload : Val) : List Ev :=
  match topic with
  | .vstr t => if t == "" then [] else [Ev.pub t payload]
  | _ => []

/-- `topics.py get_device_name` (the `TopicsMixin` copy, which precedes
`HelpersMixin` in the `Blink2Mqtt` MRO):
`self.devices[device_id]["component"]["device"]["name"]`. -/
def get_device_name (st : St) (d : String) : Except String Val := do
  let dev ← storeSubscript st.devices d
  let comp ← pySubscript dev "component"
  let devblock ← pySubscript comp "device"
  pySubscript devblock "name"

/-- `topics.py get_component`: `self.devices[device_id]["component"]`. -/
def get_component (st : St) (d : String) : Except String Val := do
  let dev ← storeSubscript st.devices d
  pySubscript dev "component"

/-- `topics.py get_component_type`:
`self.devices[device_id]["component"].get("component_type", "unknown")`. -/
def get_component_type (st : St) (d : String) : Except String Val := do
  let comp ← get_component st d
  pyGetAttrD comp "component_type" (Val.vstr "unknown")

/-- `topics.py get_modes`: `self.devices[device_id]["modes"]`. -/
def get_modes (st : St) (d : String) : Except String Val := do
  let dev ← storeSubscript st.devices d
  pySubscript dev "modes"

/-- `topics.py get_mode`:
`self.devices[device_id]["modes"][mode_name]`. -/
def get_mode (st : St) (d : String) (modeName : Val) : Except String Val := do
  let modes ← get_modes st d
  pySubscriptV modes modeName

/-- `topics.py is_discovered` (the `TopicsMixin` copy, effective in the
MRO; unlike the shadowed `HelpersMixin` copy it does not pre-check that
`"internal"` is present):
`self.states[device_id]["internal"].get("discovered", False)`. -/
def is_discovered (st : St) (d : String) : Except String Val := do
  let s ← storeSubscript st.states d
  let internal ← pySubscript s "internal"
  pyGetAttrD internal "discovered" (Val.vbool false)

/-- `topics.py get_device_state_topic`: mode component when `mode_name` is
truthy, else the main component; cameras use `json_attributes_topic`,
everything else `stat_t or state_topic`. -/
def get_device_state_topic (st : St) (d : String) (modeName : Val) : Except String Val := do
  let component ← if pyTruthy modeName then get_mode st d modeName else get_component st d
  let ct ← pySubscript component "component_type"
  if valBeq ct (Val.vstr "camera") then
    pySubscript component "json_attributes_topic"
  else do
    let a ← pyGetAttrD component "stat_t" Val.vnone
    let b ← pyGetAttrD component "state_topic" Val.vnone
    pure (pyOr a b)

/-- `topics.py get_device_image_topic`: `component["topic"]`. -/
def get_device_image_topic (st : St) (d : String) : Except String Val := do
  let component ← get_component st d
  pySubscript component "topic"

/-- `topics.py get_device_availability_topic`:
`component.get("avty_t") or component.get("availability_topic")`. -/
def get_device_availability_topic (st : St) (d : String) : Except String Val := do
  let component ← get_component st d
  let a ← pyGetAttrD component "avty_t" Val.vnone
  let b ← pyGetAttrD component "availability_topic" Val.vnone
  pure (pyOr a b)

/-- `blink.py publish_device_availability` (the `BlinkMixin` copy; the
`PublishMixin` variant in publish.py is not part of the `Blink2Mqtt`
composition in core.py): skip the publish entirely when the primary state
topic and the availability topic are both truthy and equal, otherwise
publish the bare `"online"`/`"offline"` string to the availability
topic. -/
def publish_device_availability (d : String) (online : Bool) : StM Unit := do
  let payload := if online then "online" else "offline"
  let st ← getSt
  let stat_t ← liftExc (get_device_state_topic st d (Val.vstr ""))
  let avty_t ← liftExc (get_device_availability_topic st d)
  if pyTruthy stat_t && pyTruthy avty_t && valBeq stat_t avty_t then pure ()
  else emit (mqttSafePublishVal avty_t (Val.vstr payload))

/-- The `_publish_one` closure of `blink.py publish_device_state`.  For a
dict-shaped state the payload is the entries minus `component_type` (the
inner re-filtering loop of the source removes the same key again and the
`elif not isinstance(payload, dict)` arm is unreachable because the
comprehension always builds a dict); an empty payload becomes the string
`""`; when `states.get("meta")` is a dict containing `last_update`, the
value is copied into the flat payload — except that when the payload was
empty, `flat` is the string `""` and the item assignment raises
`TypeError`.  Non-dict states are published as-is.  Event payloads stand
for the JSON serialization (`json.dumps`) the source sends. -/
def pdsPublishOne (deviceStates : Val) (st : St) (d : String) (modeName : Val) (defn : Val) :
    Except String (List Ev) := do
  let topic ← get_device_state_topic st d modeName
  match defn with
  | .vdict es =>
    let payload := es.filter (fun kv => !(valBeq kv.1 (Val.vstr "component_type")))
    let metav ← pyGetAttrD deviceStates "meta" Val.vnone
    let hasLast :=
      match metav with
      | .vdict ms => (lookupVal (Val.vstr "last_update") ms).isSome
      | _ => false
    if payload.isEmpty then
      if hasLast then
        .error "TypeError: str object does not support item assignment"
      else
        .ok (mqttSafePublishVal topic (Val.vstr ""))
    else
      let flat :=
        if hasLast then
          dictSet payload (Val.vstr "last_update")
            (match metav with
             | .vdict ms => (lookupVal (Val.vstr "last_update") ms).getD Val.vnone
             | _ => Val.vnone)
        else payload
      .ok (mqttSafePublishVal topic (Val.vdict flat))
  | _ => .ok (mqttSafePublishVal topic defn)

/-- The `for name, mode in modes.items()` loop of
`blink.py publish_device_state`: each mode looks up
`states[mode["component_type"]]`, indexes it by the mode name when it is a
dict (no missing-state guard exists in this copy — a missing section or
entry raises `KeyError`), and publishes. -/
def pdsModesLoop (deviceStates : Val) (st : St) (d : String) :
    List (Val × Val) → StM Unit
  | [] => pure ()
  | (nameV, mode) :: rest => do
    let ct ← liftExc (pySubscript mode "component_type")
    let sectionStates ← liftExc (pySubscriptV deviceStates ct)
    let typeStates ← liftExc
      (match sectionStates with
       | Val.vdict _ => pySubscriptV sectionStates nameV
       | _ => .ok sectionStates)
    let evs ← liftExc (pdsPublishOne deviceStates st d nameV typeStates)
    emit evs
    pdsModesLoop deviceStates st d rest

/-- `blink.py publish_device_state` (the `BlinkMixin` copy, effective in
the MRO): a guarded no-op (debug log only) when `is_discovered` is falsy,
otherwise publish the main component state
(`states[self.get_component_type(device_id)]`) and then every mode's
state.  Note `is_discovered` itself raises `KeyError` when the device has
no state entry or its state tree has no `"internal"` mapping. -/
def publish_device_state (d : String) : StM Unit := do
  let st ← getSt
  let disc ← liftExc (is_discovered st d)
  if !(pyTruthy disc) then pure ()
  else do
    let deviceStates := (storeGet st.states d).getD Val.vnone
    let ct ← liftExc (get_component_type st d)
    let mainStates ← liftExc (pySubscriptV deviceStates ct)
    let evs ← liftExc (pdsPublishOne deviceStates st d (Val.vstr "") mainStates)
    emit evs
    let modes ← liftExc (get_modes st d)
    match modes with
    | .vdict ms => pdsModesLoop deviceStates st d ms
    | _ => raiseErr "TypeError: modes is not a dict"

/-- `blink.py publish_device_image`: read `self.states[device_id][type]`;
when it is a truthy string, publish it (retained) to the device image
topic (`component["topic"]`). -/
def publish_device_image (d : String) (ty : String) : StM Unit := do
  let st ← getSt
  let s ← liftExc (storeSubscript st.states d)
  let payload ← liftExc (pySubscript s ty)
  match payload with
  | .vstr p =>
    if !(p == "") then do
      let _ ← liftExc (get_device_name st d)
      let topic ← liftExc (get_device_image_topic st d)
      emit (mqttSafePublishVal topic (Val.vstr p))
    else pure ()
  | _ => pure ()

/-- A service state with the configured defaults (prefix `blink2mqtt`,
discovery prefix `homeassistant`, the three default intervals) around
given shadow stores. -/
def mkSt (devices states : Store) : St :=
  { devices := devices, states := states, svcSlug := "blink2mqtt",
    discPrefix := "homeassistant", discoveryComplete := true, apiCalls := 0,
    lastApiCall := "", rateLimited := false, deviceInterval := 30,
    deviceListInterval := 3600, snapshotInterval := 5 }

/-- Structurally equal values have the same truthiness. -/
theorem valBeq_pyTruthy (a b : Val) (h : valBeq a b = true) :
    pyTruthy a = pyTruthy b := by
  cases a <;> cases b <;> simp_all [valBeq, pyTruthy]
  case vlist.vlist xs ys =>
    cases xs <;> cases ys <;> simp_all [valListBeq, List.isEmpty]
  case vtup.vtup xs ys =>
    cases xs <;> cases ys <;> simp_all [valListBeq, List.isEmpty]
  case vdict.vdict es fs =>
    cases es <;> cases fs <;> simp_all [valEntriesBeq, List.isEmpty]

/-- A falsy topic value (empty string, `None`, or any non-string) never
reaches the broker: paho rejects it and `mqtt_safe_publish` swallows the
exception. -/
theorem mqttSafePublish_falsy (t p : Val) (h : pyTruthy t = false) :
    mqttSafePublishVal t p = [] := by
  cases t <;> simp_all [pyTruthy, mqttSafePublishVal]

/-- C6: when the primary state topic and the availability topic of a device
compare equal, `publish_device_availability` publishes nothing at all (for
online as well as offline) — either the explicit equal-topic guard returns
early, or the topics are falsy and the underlying publish is rejected and
swallowed; when the topics differ and the availability topic is a non-empty
string, exactly the bare string `"online"`/`"offline"` is published to the
availability topic. -/
theorem C6_availability_topic_guard (st : St) (d : String) (sv av : Val) (online : Bool)
    (hs : get_device_state_topic st d (Val.vstr "") = .ok sv)
    (ha : get_device_availability_topic st d = .ok av) :
    (valBeq sv av = true → publish_device_availability d online st = Out.good st [] ())
    ∧ (∀ t : String, valBeq sv av = false → av = Val.vstr t → (t == "") = false →
        publish_device_availability d online st
          = Out.good st [Ev.pub t (Val.vstr (if online then "online" else "offline"))] ()) := by
  constructor
  · intro heq
    by_cases hguard : (pyTruthy sv && pyTruthy av && valBeq sv av) = true
    · simp only [Bool.and_eq_true] at hguard
      simp [publish_device_availability, stM_bind_def, bindS, getSt, liftExc, hs, ha,
        hguard.1.1, hguard.1.2, hguard.2, stM_pure_def, pureS]
    · have hta : pyTruthy av = false := by
        cases hpa : pyTruthy av
        · rfl
        · rw [Bool.and_eq_true, Bool.and_eq_true] at hguard
          exact absurd ⟨⟨(valBeq_pyTruthy sv av heq).trans hpa, hpa⟩, heq⟩ hguard
      simp [publish_device_availability, stM_bind_def, bindS, getSt, liftExc, hs, ha,
        hta, emit, mqttSafePublish_falsy av _ hta]
  · intro t hne hav ht
    subst hav
    have ht2 : ¬(t = "") := by simpa using ht
    simp [publish_device_availability, stM_bind_def, bindS, getSt, liftExc, hs, ha,
      hne, emit, mqttSafePublishVal, ht2]

/-- A camera whose availability topic is configured identical to its
primary (attributes) state topic. -/
def c6CamSt : St :=
  mkSt [("CAM1", Val.vdict [(Val.vstr "component",
    Val.vdict [(Val.vstr "component_type", Val.vstr "camera"),
               (Val.vstr "json_attributes_topic", Val.vstr "blink2mqtt/CAM1/attributes"),
               (Val.vstr "avty_t", Val.vstr "blink2mqtt/CAM1/attributes")])])] []

/-- A switch-style device with distinct state and availability topics. -/
def c6SyncSt : St :=
  mkSt [("SYNC1", Val.vdict [(Val.vstr "component",
    Val.vdict [(Val.vstr "component_type", Val.vstr "switch"),
               (Val.vstr "stat_t", Val.vstr "blink2mqtt/SYNC1/switch/armed"),
               (Val.vstr "avty_t", Val.vstr "blink2mqtt/SYNC1/availability")])])] []

/-- C6 witness: the theorem applied to the camera with equal topics
(nothing published) and to the switch with distinct topics (exactly
`"offline"` published to the availability topic). -/
theorem C6_availability_topic_guard_witness :
    (get_device_state_topic c6CamSt "CAM1" (Val.vstr "")
        = .ok (Val.vstr "blink2mqtt/CAM1/attributes"))
    ∧ publish_device_availability "CAM1" true c6CamSt = Out.good c6CamSt [] ()
    ∧ publish_device_availability "SYNC1" false c6SyncSt
        = Out.good c6SyncSt [Ev.pub "blink2mqtt/SYNC1/availability" (Val.vstr "offline")] () := by
  refine ⟨rfl, ?_, ?_⟩
  · exact (C6_availability_topic_guard c6CamSt "CAM1" (Val.vstr "blink2mqtt/CAM1/attributes")
      (Val.vstr "blink2mqtt/CAM1/attributes") true rfl rfl).1 rfl
  · exact (C6_availability_topic_guard c6SyncSt "SYNC1" (Val.vstr "blink2mqtt/SYNC1/switch/armed")
      (Val.vstr "blink2mqtt/SYNC1/availability") false rfl rfl).2
      "blink2mqtt/SYNC1/availability" rfl rfl rfl

/-- C4 (amended): whenever the discovery flag lookup succeeds with a falsy
result — i.e. the device has a state entry whose `internal` mapping lacks a
truthy `discovered` — `publish_device_state` is a no-op: no events, no
exception, state untouched (the source logs at debug level and returns). -/
theorem C4_discovery_gating (st : St) (d : String) (v : Val)
    (h : is_discovered st d = .ok v) (hv : pyTruthy v = false) :
    publish_device_state d st = Out.good st [] () := by
  simp [publish_device_state, stM_bind_def, bindS, getSt, liftExc, h, hv,
    stM_pure_def, pureS]

/-- A device that has state entries but no `internal` mapping (and has not
been discovered). -/
def c4NoInternalSt : St :=
  mkSt [] [("CAM1", Val.vdict [(Val.vstr "sensor", Val.vdict [])])]

/-- C4 counterexample: the claim says `PublishState(d)` before discovery is
a non-raising no-op regardless of what state entries exist for `d`.  For a
device whose state tree has entries but no `internal` mapping, the
effective `is_discovered` (`topics.py`, `self.states[device_id]["internal"]
.get(...)`) raises `KeyError` instead, so `publish_device_state` raises
rather than returning quietly (it does still publish nothing). -/
theorem C4_missing_internal_raises :
    publish_device_state "CAM1" c4NoInternalSt
      = Out.bad c4NoInternalSt [] "KeyError: internal" := rfl

/-- A device whose state tree carries `internal` without a `discovered`
flag. -/
def c4UndiscoveredSt : St :=
  mkSt [] [("CAM2", Val.vdict [(Val.vstr "internal",
    Val.vdict [(Val.vstr "raw_id", Val.vstr "CAM2")])])]

/-- C4 witness: the gating theorem applied to an undiscovered device with
an `internal` mapping — zero publishes, no exception. -/
theorem C4_discovery_gating_witness :
    is_discovered c4UndiscoveredSt "CAM2" = .ok (Val.vbool false)
    ∧ publish_device_state "CAM2" c4UndiscoveredSt = Out.good c4UndiscoveredSt [] () := by
  exact ⟨rfl, C4_discovery_gating c4UndiscoveredSt "CAM2" (Val.vbool false) rfl rfl⟩

/-- `self.upsert_state(...)` as a method: merge into `self.states`, raising
the tuple `TypeError` into the monad (uncaught, as in the source). -/
def upsertStateM (d : String) (kwargs : List (String × Val)) : StM Bool := fun st =>
  match upsert_state st.states d kwargs with
  | .ok (ns, changed) => .good { st with states := ns } [] changed
  | .error (e, ns) => .bad { st with states := ns } [] e

/-- `self.upsert_device(...)` as a method over `self.devices`. -/
def upsertDeviceM (d : String) (kwargs : List (String × Val)) : StM Bool := fun st =>
  match upsert_device st.devices d kwargs with
  | .ok (ns, changed) => .good { st with devices := ns } [] changed
  | .error (e, ns) => .bad { st with devices := ns } [] e

/-- `helpers.py handle_device_command(device_id, handler, message)`.
`setterResult` is the outcome of the awaited external setter
(`set_motion_detection` / `set_nightvision` return `True`, `False` or
`None`; the retry internals are modelled separately for C9).  The source
invokes the setter FIRST and only on a truthy result upserts the local
state and republishes — and the republish calls are themselves broken:
the `motion_detection` arm calls
`await self.publish_device_state(device_id, "switch", "motion_detection")`
although `publish_device_state` accepts only `(self, device_id)`, so the
call raises `TypeError` before publishing anything; the `nightvision` arm
calls the synchronous `publish_device_state(device_id)` (which executes
and publishes) and then awaits its `None` return value, raising
`TypeError`.  An unknown handler just logs. -/
def handle_device_command (d : String) (handler : String) (message : Val)
    (setterResult : Val) : StM Unit :=
  if handler == "motion_detection" then do
    emit [Ev.setter "set_motion_detection" (Val.vbool (valBeq message (Val.vstr "ON")))]
    if pyTruthy setterResult then do
      let _ ← upsertStateM d [("switch", Val.vdict [(Val.vstr "motion_detection", message)])]
      raiseErr "TypeError: publish_device_state() takes 2 positional arguments but 4 were given"
    else pure ()
  else if handler == "nightvision" then do
    emit [Ev.setter "set_nightvision" message]
    if pyTruthy setterResult then do
      let _ ← upsertStateM d [("select", Val.vdict [(Val.vstr "nightvision", message)])]
      publish_device_state d
      raiseErr "TypeError: object NoneType cannot be used in await expression"
    else pure ()
  else pure ()

/-- Is the event an MQTT publish? -/
def isPubEv : Ev → Bool
  | .pub _ _ => true
  | _ => false

/-- Is the event an external setter invocation? -/
def isSetterEv : Ev → Bool
  | .setter _ _ => true
  | _ => false

/-- Publishes that happen strictly before the first external setter call of
a trace. -/
def pubsBeforeFirstSetter (evs : List Ev) : Nat :=
  (evs.takeWhile (fun e => !(isSetterEv e))).countP isPubEv

/-- Sequencing an event emission only prepends the events. -/
theorem traceOf_bind_emit {α : Type} (l : List Ev) (k : Unit → StM α) (st : St) :
    traceOf (bindS (emit l) k st) = l ++ traceOf (k () st) := by
  rw [bindS, emit]
  cases hk : k () st with
  | good st2 evs a => simp [hk, traceOf]
  | bad st2 evs m => simp [hk, traceOf]

/-- A camera shadow with a motion-detection switch state, as the attribute
loop leaves it. -/
def c3CamSt : St :=
  mkSt
    [("CAM1", Val.vdict [(Val.vstr "component",
      Val.vdict [(Val.vstr "component_type", Val.vstr "camera"),
                 (Val.vstr "json_attributes_topic", Val.vstr "blink2mqtt/CAM1/attributes")])])]
    [("CAM1", Val.vdict [(Val.vstr "internal",
        Val.vdict [(Val.vstr "raw_id", Val.vstr "CAM1"), (Val.vstr "discovered", Val.vint 1)]),
      (Val.vstr "switch", Val.vdict [(Val.vstr "motion_detection", Val.vstr "OFF")])])]

/-- C3 counterexample: the claim requires `HandleDeviceCommand(d,
"motion_detection", "ON")` to apply an optimistic local update and
republish state before invoking the external setter, and — with an
always-failing setter — to restore and republish the State leaf.  Run
against a camera whose `motion_detection` leaf is `"OFF"` with a failing
setter, the embedded code emits exactly one event, the setter invocation
itself: no publish precedes the setter, nothing is republished afterwards,
and the store is returned untouched (the leaf stays `"OFF"` because no
optimistic write ever happened, not because of a rollback). -/
theorem C3_no_optimistic_update :
    handle_device_command "CAM1" "motion_detection" (Val.vstr "ON") (Val.vbool false) c3CamSt
      = Out.good c3CamSt [Ev.setter "set_motion_detection" (Val.vbool true)] () := rfl

/-- C3 (amended): `handle_device_command` invokes the external setter
first; no publish ever precedes the setter invocation (for any handler,
payload and setter outcome), and when the setter reports failure the
method returns with the store unchanged, no publishes and no exception —
there is no optimistic update and hence no rollback republish. -/
theorem C3_setter_first_no_rollback (st : St) (d : String) (msg res : Val) :
    (pyTruthy res = false →
      handle_device_command d "motion_detection" msg res st
          = Out.good st [Ev.setter "set_motion_detection" (Val.vbool (valBeq msg (Val.vstr "ON")))] ()
      ∧ handle_device_command d "nightvision" msg res st
          = Out.good st [Ev.setter "set_nightvision" msg] ())
    ∧ (∀ handler : String,
        pubsBeforeFirstSetter (traceOf (handle_device_command d handler msg res st)) = 0) := by
  constructor
  · intro hres
    constructor
    · simp [handle_device_command, stM_bind_def, bindS, emit, hres, stM_pure_def, pureS]
    · simp [handle_device_command, stM_bind_def, bindS, emit, hres, stM_pure_def, pureS]
  · intro handler
    by_cases h1 : handler == "motion_detection"
    · rw [handle_device_command, if_pos h1, stM_bind_def, pubsBeforeFirstSetter,
        traceOf_bind_emit]
      simp [List.takeWhile, isSetterEv]
    · by_cases h2 : handler == "nightvision"
      · rw [handle_device_command, if_neg (by simpa using h1), if_pos h2, stM_bind_def,
          pubsBeforeFirstSetter, traceOf_bind_emit]
        simp [List.takeWhile, isSetterEv]
      · rw [handle_device_command, if_neg (by simpa using h1), if_neg (by simpa using h2)]
        simp [pubsBeforeFirstSetter, stM_pure_def, pureS, traceOf]

/-- C3 witness: the amended theorem applied to the concrete camera with a
failing setter. -/
theorem C3_setter_first_no_rollback_witness :
    pyTruthy (Val.vbool false) = false
    ∧ handle_device_command "CAM1" "nightvision" (Val.vstr "auto") (Val.vbool false) c3CamSt
        = Out.good c3CamSt [Ev.setter "set_nightvision" (Val.vstr "auto")] ()
    ∧ pubsBeforeFirstSetter
        (traceOf (handle_device_command "CAM1" "motion_detection" (Val.vstr "ON")
          (Val.vbool true) c3CamSt)) = 0 := by
  refine ⟨rfl, ?_, ?_⟩
  · exact ((C3_setter_first_no_rollback c3CamSt "CAM1" (Val.vstr "auto") (Val.vbool false)).1 rfl).2
  · exact (C3_setter_first_no_rollback c3CamSt "CAM1" (Val.vstr "ON") (Val.vbool true)).2
      "motion_detection"

/-- `refresh.py refresh_snapshot(device_id, type)`.  `image` is the outcome
of the awaited collaborator call `get_snapshot_from_device` (None, or the
base64 string; the source never yields an empty string but the model keeps
the general falsiness test).  Only when an image arrived AND it differs
from the stored one (`type not in states or states[type] is None or
states[type] != image` — content comparison) does the method store it,
upsert the last-event sensor state, and publish state and image.  The
final `await asyncio.gather(self.publish_device_state(device_id),
self.publish_device_image(device_id, type))` eagerly CALLS both
synchronous methods (their publishes happen) and then raises `TypeError`
because neither returns an awaitable; the model runs both and raises. -/
def refresh_snapshot (d : String) (ty : String) (image : Option String) (now : String) :
    StM Unit := do
  let st ← getSt
  let deviceStates ← liftExc (storeSubscript st.states d)
  match image with
  | none => pure ()
  | some img =>
    if img == "" then pure ()
    else
      match deviceStates with
      | Val.vdict es =>
        let changed :=
          match lookupVal (Val.vstr ty) es with
          | none => true
          | some Val.vnone => true
          | some v => !(valBeq v (Val.vstr img))
        if changed then do
          let st2 ← getSt
          setSt { st2 with
            states := storeSet st2.states d (Val.vdict (dictSet es (Val.vstr ty) (Val.vstr img))) }
          let _ ← upsertStateM d [("sensor",
            Val.vdict [(Val.vstr "last_event", Val.vstr "Timed snapshot"),
                       (Val.vstr "last_event_time", Val.vstr now)])]
          publish_device_state d
          publish_device_image d ty
          raiseErr "TypeError: An asyncio.Future, a coroutine or an awaitable is required"
        else pure ()
      | _ => raiseErr "TypeError: argument of type is not iterable"

/-- Publishes to one specific topic. -/
def countPubsTo (t : String) (evs : List Ev) : Nat :=
  evs.countP (fun e =>
    match e with
    | Ev.pub t2 _ => t2 == t
    | _ => false)

/-- A discovered camera shadow ready for snapshot refreshing: image topic
`blink2mqtt/CAM1/snapshot`, attributes topics for state, one `event`
mode, no stored snapshot yet. -/
def c8CamSt : St :=
  mkSt
    [("CAM1", Val.vdict
      [(Val.vstr "component", Val.vdict
        [(Val.vstr "component_type", Val.vstr "camera"),
         (Val.vstr "json_attributes_topic", Val.vstr "blink2mqtt/CAM1/attributes"),
         (Val.vstr "topic", Val.vstr "blink2mqtt/CAM1/snapshot"),
         (Val.vstr "device", Val.vdict [(Val.vstr "name", Val.vstr "Front Door")])]),
       (Val.vstr "modes", Val.vdict
        [(Val.vstr "event", Val.vdict
          [(Val.vstr "component_type", Val.vstr "camera"),
           (Val.vstr "json_attributes_topic", Val.vstr "blink2mqtt/CAM1/event_attributes")])])])]
    [("CAM1", Val.vdict
      [(Val.vstr "internal", Val.vdict
        [(Val.vstr "raw_id", Val.vstr "CAM1"), (Val.vstr "discovered", Val.vint 1)]),
       (Val.vstr "camera", Val.vstr "online"),
       (Val.vstr "snapshot", Val.vnone)])]

/-- C8: snapshot publishing is gated on content change.  First part: for
every store in which the stored image equals the fetched bytes, a fetch
publishes nothing, changes nothing and raises nothing.  Second part: on
the camera `c8CamSt` with no stored snapshot, a fetch returning `b1`
publishes to the image topic exactly once, and an immediately following
fetch returning the identical `b1` publishes to it zero times — exactly
one image publish across both fetches. -/
theorem C8_image_change_detection :
    (∀ (st : St) (d ty img now : String) (es : List (Val × Val)) (v : Val),
      storeGet st.states d = some (Val.vdict es) →
      lookupVal (Val.vstr ty) es = some v →
      valBeq v (Val.vstr img) = true →
      refresh_snapshot d ty (some img) now st = Out.good st [] ())
    ∧ countPubsTo "blink2mqtt/CAM1/snapshot"
        (traceOf (refresh_snapshot "CAM1" "snapshot" (some "SNAPB64") "t1" c8CamSt)) = 1
    ∧ countPubsTo "blink2mqtt/CAM1/snapshot"
        (traceOf (refresh_snapshot "CAM1" "snapshot" (some "SNAPB64") "t2"
          (stateOf (refresh_snapshot "CAM1" "snapshot" (some "SNAPB64") "t1" c8CamSt)))) = 0
    ∧ isGood (refresh_snapshot "CAM1" "snapshot" (some "SNAPB64") "t2"
        (stateOf (refresh_snapshot "CAM1" "snapshot" (some "SNAPB64") "t1" c8CamSt))) = true := by
  refine ⟨?_, by rfl, by rfl, by rfl⟩
  intro st d ty img now es v hst hlk hbeq
  have hvn : v ≠ Val.vnone := by
    intro hv
    rw [hv] at hbeq
    simp [valBeq] at hbeq
  by_cases himg : img = ""
  · simp [refresh_snapshot, stM_bind_def, bindS, getSt, liftExc, storeSubscript, hst,
      himg, stM_pure_def, pureS]
  · cases v with
    | vnone => exact absurd rfl hvn
    | vstr s =>
      simp_all [refresh_snapshot, stM_bind_def, bindS, getSt, liftExc, storeSubscript,
        hst, hlk, stM_pure_def, pureS]
    | vint n => simp [valBeq] at hbeq
    | vbool b => simp [valBeq] at hbeq
    | vlist xs => simp [valBeq] at hbeq
    | vtup xs => simp [valBeq] at hbeq
    | vdict fs => simp [valBeq] at hbeq

/-- C8 witness: the general no-change clause applied where the stored
snapshot already equals the fetched image. -/
theorem C8_image_change_detection_witness :
    storeGet (mkSt [] [("CAM9", Val.vdict [(Val.vstr "snapshot", Val.vstr "IMG")])]).states
        "CAM9" = some (Val.vdict [(Val.vstr "snapshot", Val.vstr "IMG")])
    ∧ refresh_snapshot "CAM9" "snapshot" (some "IMG") "t0"
        (mkSt [] [("CAM9", Val.vdict [(Val.vstr "snapshot", Val.vstr "IMG")])])
      = Out.good (mkSt [] [("CAM9", Val.vdict [(Val.vstr "snapshot", Val.vstr "IMG")])]) [] () := by
  refine ⟨rfl, ?_⟩
  exact C8_image_change_detection.1
    (mkSt [] [("CAM9", Val.vdict [(Val.vstr "snapshot", Val.vstr "IMG")])])
    "CAM9" "snapshot" "IMG" "t0"
    [(Val.vstr "snapshot", Val.vstr "IMG")] (Val.vstr "IMG") rfl rfl rfl

/-- Modelled from the spec: the forward state-topic template
`P/<deviceId>/<section>[/<entity>]` of §6 — the builder `get_state_topic`
that blink.py calls is not among the sources under src/. -/
def get_state_topic (P d sec : String) (entity : Option String) : String :=
  match entity with
  | some e => P ++ "/" ++ d ++ "/" ++ sec ++ "/" ++ e
  | none => P ++ "/" ++ d ++ "/" ++ sec

/-- Modelled from the spec: the forward command-topic template
`P/<deviceId>/<section>/<entity>/set` of §6 — the builder
`get_command_topic` that blink.py calls is not among the sources under
src/. -/
def get_command_topic (P d sec entity : String) : String :=
  P ++ "/" ++ d ++ "/" ++ sec ++ "/" ++ entity ++ "/set"

/-- Modelled from the spec: the availability-topic template
`P/<deviceId>/availability` of §6 (the optional second argument some call
sites pass does not appear in the spec's template) — `get_availability_topic`
is not among the sources under src/. -/
def get_availability_topic (P d : String) : String :=
  P ++ "/" ++ d ++ "/availability"

/-- Modelled from the spec: the discovery-topic template of §6
(`homeassistant/device/<deviceId>/config`), addressed per component type as
the blink.py call `get_discovery_topic(component_type, eff_device_id)`
requires — the builder is not among the sources under src/. -/
def get_discovery_topic (DP ctype effId : String) : String :=
  DP ++ "/" ++ ctype ++ "/" ++ effId ++ "/config"

/-- Modelled from the spec: per-device slug used inside unique ids
(`get_device_slug` is not among the sources under src/); the device id,
optionally suffixed with the entity name. -/
def get_device_slug (d : String) (suffix : Option String) : String :=
  match suffix with
  | some sfx => d ++ "_" ++ sfx
  | none => d

/-- Modelled from the spec: the service pseudo-device identifier
(`get_service_device` is not among the sources under src/; spec §3: a
synthetic device representing the bridge itself). -/
def get_service_device (P : String) : Val :=
  Val.vstr P

/-- Modelled from the spec: the `device` metadata block of a discovery
payload (spec §3: identifiers/name plus manufacturer/model/sw_version
metadata); `get_device_block` is not among the sources under src/. -/
def get_device_block (slug : String) (name via sw vendor : Val) : Val :=
  Val.vdict [(Val.vstr "ids", Val.vstr slug), (Val.vstr "name", name),
    (Val.vstr "via_device", via), (Val.vstr "sw_version", sw),
    (Val.vstr "manufacturer", vendor)]

/-- Modelled from the spec: the service state topic
(§6: service equivalents replace `<deviceId>` with the literal `service`),
as built by the external `mqtt_helper.stat_t("service", "service", key)`. -/
def svcStatT (P key : String) : String :=
  P ++ "/service/service/" ++ key

/-- `service.py publish_service_state` (the `ServiceMixin` copy, effective
in the MRO): publishes the six service metrics in dict order; scalar
values are published via `str(value)`, the `api_calls` sub-dict publishes
`value.get("api_calls")` JSON-serialized. -/
def publish_service_state : StM Unit := do
  let st ← getSt
  emit (mqttSafePublishVal (Val.vstr (svcStatT st.svcSlug "state")) (Val.vstr "online"))
  emit (mqttSafePublishVal (Val.vstr (svcStatT st.svcSlug "api_calls"))
    (Val.vstr (toString st.apiCalls)))
  emit (mqttSafePublishVal (Val.vstr (svcStatT st.svcSlug "rate_limited"))
    (Val.vstr (if st.rateLimited then "yes" else "no")))
  emit (mqttSafePublishVal (Val.vstr (svcStatT st.svcSlug "device_update_interval"))
    (Val.vstr (toString st.deviceInterval)))
  emit (mqttSafePublishVal (Val.vstr (svcStatT st.svcSlug "device_rescan_interval"))
    (Val.vstr (toString st.deviceListInterval)))
  emit (mqttSafePublishVal (Val.vstr (svcStatT st.svcSlug "snapshot_update_interval"))
    (Val.vstr (toString st.snapshotInterval)))

/-- The chained
`self.states.setdefault(eff_device_id, {}).setdefault("internal", {})["discovered"] = 1`
of `blink.py publish_device_discovery`. -/
def markDiscovered (states : Store) (effId : String) : Except String Store :=
  let devSt := (storeGet states effId).getD (Val.vdict [])
  match devSt with
  | Val.vdict es =>
    let internal := (lookupVal (Val.vstr "internal") es).getD (Val.vdict [])
    match internal with
    | Val.vdict ies =>
      .ok (storeSet states effId (Val.vdict (dictSet es (Val.vstr "internal")
        (Val.vdict (dictSet ies (Val.vstr "discovered") (Val.vint 1))))))
    | _ => .error "TypeError: item assignment on non-dict internal"
  | _ => .error "AttributeError: setdefault"

/-- The `_publish_one` closure of `blink.py publish_device_discovery`:
publish the component definition minus `component_type` (JSON-serialized,
retained) to the discovery topic of the effective device id
(`dev_id` or `dev_id_suffix`), then set the per-entity discovered flag to
the integer 1. -/
def pddPublishOne (d : String) (defn : Val) (suffix : Option String) : StM Unit := do
  let st ← getSt
  let eff := match suffix with
    | none => d
    | some sfx => d ++ "_" ++ sfx
  let ct ← liftExc (pySubscript defn "component_type")
  let topic := get_discovery_topic st.discPrefix (keyStr ct) eff
  let payload := match defn with
    | Val.vdict es => Val.vdict (es.filter (fun kv => !(valBeq kv.1 (Val.vstr "component_type"))))
    | other => other
  emit (mqttSafePublishVal (Val.vstr topic) payload)
  let st2 ← getSt
  let ns ← liftExc (markDiscovered st2.states eff)
  setSt { st2 with states := ns }

/-- The `for slug, mode in modes.items()` loop of
`publish_device_discovery`. -/
def pddModesLoop (d : String) : List (Val × Val) → StM Unit
  | [] => pure ()
  | (slugV, mode) :: rest => do
    pddPublishOne d mode (some (keyStr slugV))
    pddModesLoop d rest

/-- `blink.py publish_device_discovery` (the `BlinkMixin` copy): publish
the main component and every mode. -/
def publish_device_discovery (d : String) : StM Unit := do
  let st ← getSt
  let component ← liftExc (get_component st d)
  pddPublishOne d component none
  let st2 ← getSt
  let modes ← liftExc (get_modes st2 d)
  match modes with
  | Val.vdict ms => pddModesLoop d ms
  | _ => raiseErr "AttributeError: items"

/-- `blink.py classify_device`: `sync_module` devices are switch-like,
`sedona`/`catalina` are camera-like, everything else is logged (at debug
level, with `.get`-defaulted fields, no effects) and skipped. -/
def classify_device (device : Val) : Except String (Option String) := do
  let t ← pyGetAttrD device "device_type" Val.vnone
  if valBeq t (Val.vstr "sync_module") then pure (some "switch")
  else if valBeq t (Val.vstr "sedona") || valBeq t (Val.vstr "catalina") then pure (some "camera")
  else pure none

/-- `blink.py build_switch(sync_module)`: create the device entry
(`setdefault`), assemble the armed-switch component and the local-storage
sensor mode, seed the internal state with the raw id, upsert the device
tree, and publish discovery, availability (online) and state.  The call
`self.build_sync_module_states(device_id, sync_module)` invokes an async
method WITHOUT await: the coroutine is discarded and its state upserts
never run, so it is a no-op here.  `if not self.is_discovered(...)` only
guards an info log, but its lookup can raise.  Returns the device id. -/
def build_switch (syncModule : Val) : StM Val := do
  let raw ← liftExc (pySubscript syncModule "serial_number")
  let d ← liftExc
    (match raw with
     | Val.vstr s => .ok s
     | _ => .error "TypeError: non-string serial (store keys are strings)")
  let st0 ← getSt
  setSt { st0 with devices := storeSetdefault st0.devices d }
  let deviceName ← liftExc (pySubscript syncModule "device_name")
  let swVersion ← liftExc (pySubscript syncModule "software_version")
  let vendor ← liftExc (pySubscript syncModule "vendor")
  let st1 ← getSt
  let P := st1.svcSlug
  let component := Val.vdict
    [(Val.vstr "component_type", Val.vstr "switch"),
     (Val.vstr "name", Val.vstr (keyStr deviceName ++ " Armed")),
     (Val.vstr "uniq_id", Val.vstr (P ++ "_" ++ get_device_slug d (some "armed"))),
     (Val.vstr "stat_t", Val.vstr (get_state_topic P d "switch" (some "armed"))),
     (Val.vstr "cmd_t", Val.vstr (get_command_topic P d "switch" "armed")),
     (Val.vstr "avty_t", Val.vstr (get_availability_topic P d)),
     (Val.vstr "pl_avail", Val.vstr "online"),
     (Val.vstr "pl_not_avail", Val.vstr "offline"),
     (Val.vstr "payload_on", Val.vstr "ON"),
     (Val.vstr "payload_off", Val.vstr "OFF"),
     (Val.vstr "icon", Val.vstr "mdi:alarm-light"),
     (Val.vstr "via_device", get_service_device P),
     (Val.vstr "device",
       get_device_block (get_device_slug d none) deviceName (get_service_device P) swVersion vendor)]
  let _ ← upsertStateM d [("internal", Val.vdict [(Val.vstr "raw_id", raw)])]
  let modes := Val.vdict
    [(Val.vstr "local_storage", Val.vdict
      [(Val.vstr "component_type", Val.vstr "sensor"),
       (Val.vstr "name", Val.vstr "Local storage"),
       (Val.vstr "uniq_id", Val.vstr (P ++ "_" ++ get_device_slug d (some "local_storage"))),
       (Val.vstr "stat_t", Val.vstr (get_state_topic P d "sensor" (some "local_storage"))),
       (Val.vstr "avty_t", Val.vstr (get_availability_topic P d)),
       (Val.vstr "pl_avail", Val.vstr "online"),
       (Val.vstr "pl_not_avail", Val.vstr "offline"),
       (Val.vstr "payload_on", Val.vstr "on"),
       (Val.vstr "payload_off", Val.vstr "off"),
       (Val.vstr "icon", Val.vstr "mdi:usb-flash-drive"),
       (Val.vstr "via_device", get_service_device P),
       (Val.vstr "device",
         get_device_block (get_device_slug d none) deviceName (get_service_device P) swVersion vendor)])]
  let _ ← upsertDeviceM d [("component", component), ("modes", modes)]
  let st2 ← getSt
  let _ ← liftExc (is_discovered st2 d)
  publish_device_discovery d
  publish_device_availability d true
  publish_device_state d
  pure (Val.vstr d)

/-- `blink.py build_camera(camera)`: the snapshot-camera component plus the
event / motion / motion_detection / temperature / battery_status /
wifi_signal modes; seeds state with the raw id, `camera="online"` and
`snapshot=None`; `self.build_camera_states(device_id, camera)` is an async
method invoked WITHOUT await (discarded coroutine, no effect); then
discovery, availability (online) and state publishes.  Returns the device
id. -/
def build_camera (camera : Val) : StM Val := do
  let raw ← liftExc (pySubscript camera "serial_number")
  let d ← liftExc
    (match raw with
     | Val.vstr s => .ok s
     | _ => .error "TypeError: non-string serial (store keys are strings)")
  let deviceName ← liftExc (pySubscript camera "device_name")
  let swVersion ← liftExc (pySubscript camera "software_version")
  let vendor ← liftExc (pySubscript camera "vendor")
  let st1 ← getSt
  let P := st1.svcSlug
  let devblock :=
    get_device_block (get_device_slug d none) deviceName (get_service_device P) swVersion vendor
  let component := Val.vdict
    [(Val.vstr "component_type", Val.vstr "camera"),
     (Val.vstr "name", Val.vstr "Snapshot"),
     (Val.vstr "uniq_id", Val.vstr (P ++ "_" ++ get_device_slug d (some "snapshot"))),
     (Val.vstr "topic", Val.vstr (get_state_topic P d "snapshot" none)),
     (Val.vstr "image_encoding", Val.vstr "b64"),
     (Val.vstr "avty_t", Val.vstr (get_availability_topic P d)),
     (Val.vstr "avty_tpl", Val.vstr "\x7b\x7b value_json.availability \x7d\x7d"),
     (Val.vstr "json_attributes_topic", Val.vstr (get_state_topic P d "attributes" none)),
     (Val.vstr "pl_avail", Val.vstr "online"),
     (Val.vstr "pl_not_avail", Val.vstr "offline"),
     (Val.vstr "icon", Val.vstr "mdi:camera"),
     (Val.vstr "via_device", get_service_device P),
     (Val.vstr "device", devblock)]
  let _ ← upsertStateM d
    [("internal", Val.vdict [(Val.vstr "raw_id", raw)]),
     ("camera", Val.vstr "online"),
     ("snapshot", Val.vnone)]
  let modes := Val.vdict
    [(Val.vstr "event", Val.vdict
      [(Val.vstr "component_type", Val.vstr "camera"),
       (Val.vstr "name", Val.vstr "Event"),
       (Val.vstr "uniq_id", Val.vstr (P ++ "_" ++ get_device_slug d (some "event"))),
       (Val.vstr "topic", Val.vstr (get_state_topic P d "event" none)),
       (Val.vstr "image_encoding", Val.vstr "b64"),
       (Val.vstr "avty_t", Val.vstr (get_availability_topic P d)),
       (Val.vstr "avty_tpl", Val.vstr "\x7b\x7b value_json.availability \x7d\x7d"),
       (Val.vstr "json_attributes_topic", Val.vstr (get_state_topic P d "attributes" none)),
       (Val.vstr "pl_avail", Val.vstr "online"),
       (Val.vstr "pl_not_avail", Val.vstr "offline"),
       (Val.vstr "icon", Val.vstr "mdi:camera"),
       (Val.vstr "via_device", get_service_device P),
       (Val.vstr "device", devblock)]),
     (Val.vstr "motion", Val.vdict
      [(Val.vstr "component_type", Val.vstr "binary_sensor"),
       (Val.vstr "name", Val.vstr "Motion"),
       (Val.vstr "uniq_id", Val.vstr (P ++ "_" ++ get_device_slug d (some "motion"))),
       (Val.vstr "stat_t", Val.vstr (get_state_topic P d "camera" (some "attributes"))),
       (Val.vstr "value_template", Val.vstr "\x7b\x7b value_json.motion \x7d\x7d"),
       (Val.vstr "json_attributes_topic", Val.vstr (get_state_topic P d "attributes" none)),
       (Val.vstr "avty_t", Val.vstr (get_availability_topic P d)),
       (Val.vstr "avty_tpl", Val.vstr "\x7b\x7b value_json.availability \x7d\x7d"),
       (Val.vstr "pl_on", Val.vbool true),
       (Val.vstr "pl_off", Val.vbool false),
       (Val.vstr "icon", Val.vstr "mdi:motion-sensor-alert"),
       (Val.vstr "via_device", get_service_device P),
       (Val.vstr "device", devblock)]),
     (Val.vstr "motion_detection", Val.vdict
      [(Val.vstr "component_type", Val.vstr "switch"),
       (Val.vstr "name", Val.vstr "Motion Detection"),
       (Val.vstr "uniq_id", Val.vstr (P ++ "_" ++ get_device_slug d (some "motion_detection"))),
       (Val.vstr "stat_t", Val.vstr (get_state_topic P d "switch" (some "motion_detection"))),
       (Val.vstr "cmd_t", Val.vstr (get_command_topic P d "switch" "motion_detection")),
       (Val.vstr "avty_t", Val.vstr (get_availability_topic P d)),
       (Val.vstr "avty_tpl", Val.vstr "\x7b\x7b value_json.availability \x7d\x7d"),
       (Val.vstr "pl_on", Val.vstr "ON"),
       (Val.vstr "pl_off", Val.vstr "OFF"),
       (Val.vstr "icon", Val.vstr "mdi:motion-sensor"),
       (Val.vstr "via_device", get_service_device P),
       (Val.vstr "device", devblock)]),
     (Val.vstr "temperature", Val.vdict
      [(Val.vstr "component_type", Val.vstr "sensor"),
       (Val.vstr "name", Val.vstr "Temperature"),
       (Val.vstr "uniq_id", Val.vstr (P ++ "_" ++ get_device_slug d (some "temperature"))),
       (Val.vstr "stat_t", Val.vstr (get_state_topic P d "sensor" (some "temperature"))),
       (Val.vstr "avty_t", Val.vstr (get_availability_topic P d)),
       (Val.vstr "avty_tpl", Val.vstr "\x7b\x7b value_json.availability \x7d\x7d"),
       (Val.vstr "device_class", Val.vstr "temperature"),
       (Val.vstr "state_class", Val.vstr "measurement"),
       (Val.vstr "unit_of_measurement", Val.vstr "°F"),
       (Val.vstr "icon", Val.vstr "mdi:thermometer"),
       (Val.vstr "via_device", get_service_device P),
       (Val.vstr "device", devblock)]),
     (Val.vstr "battery_status", Val.vdict
      [(Val.vstr "component_type", Val.vstr "sensor"),
       (Val.vstr "name", Val.vstr "Battery Status"),
       (Val.vstr "uniq_id", Val.vstr (P ++ "_" ++ get_device_slug d (some "battery_status"))),
       (Val.vstr "stat_t", Val.vstr (get_state_topic P d "sensor" (some "battery_status"))),
       (Val.vstr "avty_t", Val.vstr (get_availability_topic P d)),
       (Val.vstr "avty_tpl", Val.vstr "\x7b\x7b value_json.availability \x7d\x7d"),
       (Val.vstr "entity_category", Val.vstr "diagnostic"),
       (Val.vstr "icon", Val.vstr "mdi:battery-alert"),
       (Val.vstr "via_device", get_service_device P),
       (Val.vstr "device", devblock)]),
     (Val.vstr "wifi_signal", Val.vdict
      [(Val.vstr "component_type", Val.vstr "sensor"),
       (Val.vstr "name", Val.vstr "Wifi Signal"),
       (Val.vstr "uniq_id", Val.vstr (P ++ "_" ++ get_device_slug d (some "wifi_signal"))),
       (Val.vstr "stat_t", Val.vstr (get_state_topic P d "sensor" (some "wifi_signal"))),
       (Val.vstr "avty_t", Val.vstr (get_availability_topic P d)),
       (Val.vstr "avty_tpl", Val.vstr "\x7b\x7b value_json.availability \x7d\x7d"),
       (Val.vstr "device_class", Val.vstr "signal_strength"),
       (Val.vstr "unit_of_measurement", Val.vstr "dBm"),
       (Val.vstr "icon", Val.vstr "mdi:wifi"),
       (Val.vstr "entity_category", Val.vstr "diagnostic"),
       (Val.vstr "via_device", get_service_device P),
       (Val.vstr "device", devblock)])]
  let _ ← upsertDeviceM d [("component", component), ("modes", modes)]
  let st2 ← getSt
  let _ ← liftExc (is_discovered st2 d)
  publish_device_discovery d
  publish_device_availability d true
  publish_device_state d
  pure (Val.vstr d)

/-- `blink.py build_component`: dispatch on the classifier; unknown types
return an empty list. -/
def build_component (device : Val) : StM Val := do
  let cls ← liftExc (classify_device device)
  match cls with
  | some "switch" => build_switch device
  | some "camera" => build_camera device
  | _ => pure (Val.vlist [])

/-- The two listing loops of `blink.py refresh_device_list`: for each
listed device, take its `config` sub-dict, format the info log (which
subscripts `device_name`) and build the component.  (The returned ids feed
`seen_devices`, which the commented-out offline-marking block was the only
consumer of.) -/
def rdlLoop : List (Val × Val) → StM Unit
  | [] => pure ()
  | (_, entry) :: rest => do
    let cfg ← liftExc (pySubscript entry "config")
    let _ ← liftExc (pySubscript cfg "device_name")
    let _ ← build_component cfg
    rdlLoop rest

/-- `blink.py refresh_device_list`: list cameras and sync modules from the
collaborator (supplied here as parameters), publish the service state,
classify/merge/discover every listed device, and complete first-time
discovery.  The `# Mark missing devices offline` block — the only place
that would publish `availability="offline"` for devices absent from the
listing — is commented out in the source, so no offline publish exists on
this path and devices missing from the listing are left untouched. -/
def refresh_device_list (syncModules cameras : List (Val × Val)) : StM Unit := do
  publish_service_state
  rdlLoop syncModules
  rdlLoop cameras
  let st ← getSt
  if !st.discoveryComplete then do
    emit [Ev.sleep 1]
    let st2 ← getSt
    setSt { st2 with discoveryComplete := true }
  else pure ()

/-- The upstream `config` record of the one sync module the new device-list
poll reports. -/
def c2SyncCfg : Val := Val.vdict
  [(Val.vstr "device_name", Val.vstr "Garage Hub"),
   (Val.vstr "device_type", Val.vstr "sync_module"),
   (Val.vstr "serial_number", Val.vstr "SYNC01"),
   (Val.vstr "software_version", Val.vstr "4.4.8"),
   (Val.vstr "vendor", Val.vstr "Amazon"),
   (Val.vstr "arm_mode", Val.vbool false),
   (Val.vstr "local_storage", Val.vbool true)]

/-- The state shadow a previous poll left for the sync module `SYNC01`. -/
def c2SyncStates : Val := Val.vdict
  [(Val.vstr "internal", Val.vdict
     [(Val.vstr "raw_id", Val.vstr "SYNC01"), (Val.vstr "discovered", Val.vint 1)]),
   (Val.vstr "switch", Val.vdict [(Val.vstr "armed", Val.vstr "ON")]),
   (Val.vstr "sensor", Val.vdict [(Val.vstr "local_storage", Val.vbool true)])]

/-- A store that previously saw the devices `SYNC01` and `CAM99`: `CAM99`
keeps arbitrary component and state shadows `vB`/`sB`. -/
def c2St (vB sB : Val) : St :=
  mkSt [("SYNC01", Val.vdict []), ("CAM99", vB)]
       [("SYNC01", c2SyncStates), ("CAM99", sB)]

/-- The new device-list poll: only `SYNC01` is listed; `CAM99` is gone. -/
def c2Listing : List (Val × Val) :=
  [(Val.vstr "SYNC01", Val.vdict [(Val.vstr "config", c2SyncCfg)])]

/-- Is the event a publish of the bare string `"offline"`? -/
def isOfflinePub : Ev → Bool
  | Ev.pub _ p => valBeq p (Val.vstr "offline")
  | _ => false

/-- Number of `"offline"` publishes in a trace. -/
def countOffline (evs : List Ev) : Nat :=
  evs.countP isOfflinePub

set_option maxHeartbeats 4000000 in
/-- C2 counterexample: the claim requires the poll that previously saw
`{SYNC01, CAM99}` and now sees only `{SYNC01}` to publish `CAM99`'s
availability as `"offline"` exactly once.  Running `refresh_device_list`
on that poll publishes `"offline"` zero times — the offline-marking block
is commented out in the source — so the count is not 1. -/
theorem C2_missing_device_not_marked_offline :
    countOffline (traceOf (refresh_device_list c2Listing []
      (c2St (Val.vdict []) (Val.vdict [])))) = 0
    ∧ ¬ (countOffline (traceOf (refresh_device_list c2Listing []
      (c2St (Val.vdict []) (Val.vdict [])))) = 1) := by
  exact ⟨by rfl, by decide⟩

set_option maxHeartbeats 4000000 in
/-- C2 (amended): for the spec's reconciliation scenario — a previous poll
saw `{SYNC01, CAM99}`, the new poll lists only `SYNC01` — `refresh_device_list`
retains `CAM99`'s component and state shadows unchanged whatever trees they
hold, runs to completion, and (evaluated at the concrete instance) publishes
`"offline"` zero times: the offline-marking block is commented out in the
source, so the absent device is never marked offline. -/
theorem C2_offline_reconciliation (vB sB : Val) :
    storeGet (stateOf (refresh_device_list c2Listing [] (c2St vB sB))).devices "CAM99"
        = some vB
    ∧ storeGet (stateOf (refresh_device_list c2Listing [] (c2St vB sB))).states "CAM99"
        = some sB
    ∧ isGood (refresh_device_list c2Listing [] (c2St vB sB)) = true
    ∧ countOffline (traceOf (refresh_device_list c2Listing []
        (c2St (Val.vdict [(Val.vstr "component", Val.vdict [])])
              (Val.vdict [(Val.vstr "camera", Val.vstr "online")])))) = 0 := by
  exact ⟨by rfl, by rfl, by rfl, by rfl⟩

/-- One iteration's outcome of the `device.async_arm(switch)` call inside
the retry loop of `blink_api.py set_motion_detection` (and, identically,
`set_nightvision`): either an exception (timeout or failure) or a response
value. -/
inductive BlinkAttempt where
  | exc
  | resp (v : Val)

/-- `blink_api.py handle_blink_response`: a truthy dict response with
`code == 307` is the vendor busy signal — sleep a fixed 2 seconds and
return `None` (which the caller's loop turns into a retry); a
`state_stage` of `completed`/`rest` is success (`True`); anything else is
logged and returned as terminal `False`. -/
def handle_blink_response (v : Val) : Option Bool × List Ev :=
  match v with
  | Val.vdict es =>
    if pyTruthy (Val.vdict es) then
      if valBeq ((lookupVal (Val.vstr "code") es).getD (Val.vint 200)) (Val.vint 307) then
        (none, [Ev.sleep 2])
      else if valBeq ((lookupVal (Val.vstr "state_stage") es).getD Val.vnone)
                (Val.vstr "completed")
            || valBeq ((lookupVal (Val.vstr "state_stage") es).getD Val.vnone)
                (Val.vstr "rest") then
        (some true, [])
      else (some false, [])
    else (some false, [])
  | _ => (some false, [])

/-- The `for attempt in range(1, max_retries + 1)` loop of
`set_motion_detection` over the remaining attempt numbers: each iteration
calls the external setter (recorded as `Ev.attempt`), feeds the response
through `handle_blink_response` (`None` means `continue`), returns any
`True`/`False` result immediately, and on an exception sleeps
`base_delay * attempt` (= 2·attempt) and retries.  Falling off the loop
returns `None`. -/
def smdGo (oracle : Nat → BlinkAttempt) : List Nat → Option Bool × List Ev
  | [] => (none, [])
  | i :: rest =>
    match oracle i with
    | .exc =>
      ((smdGo oracle rest).1, Ev.attempt i :: Ev.sleep (2 * i) :: (smdGo oracle rest).2)
    | .resp v =>
      match handle_blink_response v with
      | (none, evs) =>
        ((smdGo oracle rest).1, Ev.attempt i :: (evs ++ (smdGo oracle rest).2))
      | (some b, evs) => (some b, Ev.attempt i :: evs)

/-- `blink_api.py set_motion_detection` with `max_retries = 5` and
`base_delay = 2`; `known` models the initial device lookup (an unknown
device id is logged and returns `None` without any attempt), `oracle` the
external device's behaviour per attempt number. -/
def set_motion_detection (oracle : Nat → BlinkAttempt) (known : Bool) :
    Option Bool × List Ev :=
  if known then smdGo oracle [1, 2, 3, 4, 5]
  else (none, [])

/-- Is the event an external-setter attempt? -/
def isAttemptEv : Ev → Bool
  | .attempt _ => true
  | _ => false

/-- Setter attempts recorded in a trace. -/
def numAttempts (evs : List Ev) : Nat :=
  evs.countP isAttemptEv

/-- An attempt outcome that does not terminate the loop: an exception, or
a response that `handle_blink_response` answers with `None` (the busy
code). -/
def nonTerminal (a : BlinkAttempt) : Bool :=
  match a with
  | .exc => true
  | .resp v => (handle_blink_response v).1.isNone

/-- `handle_blink_response` emits either nothing or the single fixed busy
sleep. -/
theorem handle_blink_response_evs (v : Val) :
    (handle_blink_response v).2 = [] ∨ (handle_blink_response v).2 = [Ev.sleep 2] := by
  cases v <;> simp [handle_blink_response]
  case vdict es => split_ifs <;> simp

/-- The response handler never emits attempt events. -/
theorem handle_blink_response_no_attempts (v : Val) :
    numAttempts (handle_blink_response v).2 = 0 := by
  rcases handle_blink_response_evs v with h | h <;> rw [numAttempts, h] <;> rfl

/-- Unfolding: an attempt that raises sleeps `2 * i` and retries. -/
theorem smdGo_cons_exc (oracle : Nat → BlinkAttempt) (i : Nat) (rest : List Nat)
    (h : oracle i = .exc) :
    smdGo oracle (i :: rest)
      = ((smdGo oracle rest).1,
         Ev.attempt i :: Ev.sleep (2 * i) :: (smdGo oracle rest).2) := by
  rw [smdGo, h]

/-- Unfolding: a response the handler answers with `None` retries. -/
theorem smdGo_cons_retry (oracle : Nat → BlinkAttempt) (i : Nat) (rest : List Nat)
    (v : Val) (evs : List Ev) (h : oracle i = .resp v)
    (hh : handle_blink_response v = (none, evs)) :
    smdGo oracle (i :: rest)
      = ((smdGo oracle rest).1, Ev.attempt i :: (evs ++ (smdGo oracle rest).2)) := by
  rw [smdGo, h]
  simp [hh]

/-- Unfolding: a terminal handler answer returns immediately. -/
theorem smdGo_cons_done (oracle : Nat → BlinkAttempt) (i : Nat) (rest : List Nat)
    (v : Val) (b : Bool) (evs : List Ev) (h : oracle i = .resp v)
    (hh : handle_blink_response v = (some b, evs)) :
    smdGo oracle (i :: rest) = (some b, Ev.attempt i :: evs) := by
  rw [smdGo, h]
  simp [hh]

/-- The loop makes at most as many attempts as it has attempt numbers. -/
theorem smdGo_attempts_le (oracle : Nat → BlinkAttempt) (l : List Nat) :
    numAttempts (smdGo oracle l).2 ≤ l.length := by
  induction l with
  | nil => simp [smdGo, numAttempts]
  | cons i rest ih =>
    simp only [numAttempts] at ih
    cases ho : oracle i with
    | exc =>
      rw [smdGo_cons_exc oracle i rest ho]
      simp [numAttempts, List.countP_cons, isAttemptEv]
      omega
    | resp v =>
      cases hh : handle_blink_response v with
      | mk r evs =>
        have hevs := handle_blink_response_no_attempts v
        rw [numAttempts, hh] at hevs
        simp only at hevs
        cases r with
        | none =>
          rw [smdGo_cons_retry oracle i rest v evs ho hh]
          simp [numAttempts, List.countP_cons, List.countP_append, isAttemptEv, hevs]
          omega
        | some b =>
          rw [smdGo_cons_done oracle i rest v b evs ho hh]
          simp [numAttempts, List.countP_cons, isAttemptEv, hevs]

/-- When every attempt outcome is non-terminal, the loop makes every
attempt and falls off the end with `None`. -/
theorem smdGo_exhausted (oracle : Nat → BlinkAttempt) (l : List Nat)
    (h : ∀ i ∈ l, nonTerminal (oracle i) = true) :
    (smdGo oracle l).1 = none
    ∧ numAttempts (smdGo oracle l).2 = l.length := by
  induction l with
  | nil => simp [smdGo, numAttempts]
  | cons i rest ih =>
    have hi := h i (by simp)
    have hrest := ih (fun j hj => h j (by simp [hj]))
    simp only [numAttempts] at hrest
    cases ho : oracle i with
    | exc =>
      rw [smdGo_cons_exc oracle i rest ho]
      simp only [numAttempts, List.countP_cons, isAttemptEv, List.length_cons]
      refine ⟨hrest.1, ?_⟩
      simp
      omega
    | resp v =>
      rw [ho, nonTerminal] at hi
      cases hh : handle_blink_response v with
      | mk r evs =>
        have hevs := handle_blink_response_no_attempts v
        rw [numAttempts, hh] at hevs
        simp only at hevs
        cases r with
        | none =>
          rw [smdGo_cons_retry oracle i rest v evs ho hh]
          simp only [numAttempts, List.countP_cons, List.countP_append, isAttemptEv,
            List.length_cons]
          refine ⟨hrest.1, ?_⟩
          simp [hevs]
          omega
        | some b =>
          rw [hh] at hi
          simp at hi

/-- Whenever an attempt that was actually made raised an exception, the
trace records the backoff sleep of `base_delay * attempt` right after
it. -/
theorem smdGo_exc_sleep (oracle : Nat → BlinkAttempt) (l : List Nat) (i : Nat)
    (hmem : Ev.attempt i ∈ (smdGo oracle l).2) (hexc : oracle i = .exc) :
    Ev.sleep (2 * i) ∈ (smdGo oracle l).2 := by
  induction l with
  | nil => simp [smdGo] at hmem
  | cons j rest ih =>
    cases ho : oracle j with
    | exc =>
      rw [smdGo_cons_exc oracle j rest ho] at hmem ⊢
      simp only [List.mem_cons] at hmem ⊢
      rcases hmem with h1 | h2 | h3
      · have hij : i = j := by simpa using h1
        subst hij
        simp
      · simp at h2
      · exact Or.inr (Or.inr (ih h3))
    | resp v =>
      cases hh : handle_blink_response v with
      | mk r evs =>
        have hshape : evs = [] ∨ evs = [Ev.sleep 2] := by
          have hx := handle_blink_response_evs v
          rw [hh] at hx
          exact hx
        cases r with
        | none =>
          rw [smdGo_cons_retry oracle j rest v evs ho hh] at hmem ⊢
          simp only [List.mem_cons, List.mem_append] at hmem ⊢
          rcases hmem with h1 | h2 | h3
          · exfalso
            have hij : i = j := by simpa using h1
            subst hij
            rw [hexc] at ho
            simp at ho
          · exfalso
            rcases hshape with hs | hs <;> subst hs <;> simp_all
          · exact Or.inr (Or.inr (ih h3))
        | some b =>
          rw [smdGo_cons_done oracle j rest v b evs ho hh] at hmem ⊢
          exfalso
          simp only [List.mem_cons] at hmem
          rcases hmem with h1 | h2
          · have hij : i = j := by simpa using h1
            subst hij
            rw [hexc] at ho
            simp at ho
          · rcases hshape with hs | hs <;> subst hs <;> simp_all

/-- C9 (amended): `set_motion_detection` makes at most 5 attempts; a
vendor busy response (`code == 307`) is answered with `None` after a fixed
2-second sleep and causes a retry rather than a terminal result; when all
5 attempts end non-terminally (busy or exception) the call makes exactly 5
attempts and terminates with the failure result `None` instead of retrying
further; and each attempt that raised an exception is followed by a sleep
of `base_delay * attempt` = 2·attempt seconds (the busy sleep stays fixed
at 2 seconds — see the counterexample). -/
theorem C9_retry_policy :
    (∀ (oracle : Nat → BlinkAttempt) (known : Bool),
      numAttempts (set_motion_detection oracle known).2 ≤ 5)
    ∧ (∀ es : List (Val × Val), pyTruthy (Val.vdict es) = true →
        valBeq ((lookupVal (Val.vstr "code") es).getD (Val.vint 200)) (Val.vint 307) = true →
        handle_blink_response (Val.vdict es) = (none, [Ev.sleep 2]))
    ∧ (∀ oracle : Nat → BlinkAttempt,
        (∀ i ∈ [1, 2, 3, 4, 5], nonTerminal (oracle i) = true) →
        (set_motion_detection oracle true).1 = none
        ∧ numAttempts (set_motion_detection oracle true).2 = 5)
    ∧ (∀ (oracle : Nat → BlinkAttempt) (i : Nat),
        Ev.attempt i ∈ (set_motion_detection oracle true).2 → oracle i = .exc →
        Ev.sleep (2 * i) ∈ (set_motion_detection oracle true).2) := by
  refine ⟨?_, ?_, ?_, ?_⟩
  · intro oracle known
    cases known with
    | true =>
      have := smdGo_attempts_le oracle [1, 2, 3, 4, 5]
      simpa [set_motion_detection] using this
    | false => simp [set_motion_detection, numAttempts]
  · intro es htr hcode
    simp [handle_blink_response, htr, hcode]
  · intro oracle h
    have := smdGo_exhausted oracle [1, 2, 3, 4, 5] h
    simpa [set_motion_detection] using this
  · intro oracle i hmem hexc
    rw [set_motion_detection] at hmem ⊢
    simp only [if_pos rfl] at hmem ⊢
    exact smdGo_exc_sleep oracle [1, 2, 3, 4, 5] i hmem hexc

/-- The vendor busy response and a completed response. -/
def c9Busy : Val := Val.vdict [(Val.vstr "code", Val.vint 307)]

/-- A successful `state_stage = completed` response. -/
def c9Done : Val := Val.vdict [(Val.vstr "state_stage", Val.vstr "completed")]

/-- A device that answers busy twice, then succeeds. -/
def c9Oracle : Nat → BlinkAttempt := fun i =>
  if i ≤ 2 then .resp c9Busy else .resp c9Done

/-- C9 counterexample: the claim reads the backoff as "sleeping base delay
× attempt number between failed attempts".  With a device that answers
busy (307) on attempts 1 and 2 and succeeds on attempt 3, the trace is
`attempt 1, sleep 2, attempt 2, sleep 2, attempt 3`: the sleep between the
second failed attempt and the third attempt is the fixed 2-second pause of
`handle_blink_response`, not `base_delay × 2 = 4` — only
exception-failed attempts back off proportionally. -/
theorem C9_busy_sleep_is_constant :
    (set_motion_detection c9Oracle true).2
      = [Ev.attempt 1, Ev.sleep 2, Ev.attempt 2, Ev.sleep 2, Ev.attempt 3]
    ∧ ¬ ((2 : Nat) = 2 * 2) := by
  exact ⟨rfl, by decide⟩

/-- C9 witness: the amended theorem applied to a device whose setter
always raises — at most (exactly) 5 attempts, failure result `None`, and
the attempt-3 exception is followed by a 6-second backoff sleep. -/
theorem C9_retry_policy_witness :
    numAttempts (set_motion_detection (fun _ => BlinkAttempt.exc) true).2 ≤ 5
    ∧ (set_motion_detection (fun _ => BlinkAttempt.exc) true).1 = none
    ∧ Ev.sleep (2 * 3) ∈ (set_motion_detection (fun _ => BlinkAttempt.exc) true).2 := by
  refine ⟨C9_retry_policy.1 (fun _ => BlinkAttempt.exc) true, ?_, ?_⟩
  · exact (C9_retry_policy.2.2.1 (fun _ => BlinkAttempt.exc)
      (by intro i hi; rfl)).1
  · refine C9_retry_policy.2.2.2 (fun _ => BlinkAttempt.exc) 3 ?_ rfl
    show Ev.attempt 3 ∈ [Ev.attempt 1, Ev.sleep 2, Ev.attempt 2, Ev.sleep 4,
      Ev.attempt 3, Ev.sleep 6, Ev.attempt 4, Ev.sleep 8, Ev.attempt 5, Ev.sleep 10]
    simp

/-- Python negative indexing `components[-i]` on a list of topic segments:
`None` models the `IndexError` that the surrounding `try` of
`_parse_device_topic` catches. -/
def nthNeg (xs : List String) (i : Nat) : Option String :=
  if xs.length < i then none else xs.get? (xs.length - i)

/-- Python `"_" in s`. -/
def hasUnderscore (s : String) : Bool :=
  s.toList.contains '_'

/-- Python `str.split(sep)` at the character level: consecutive separators
yield empty fields and the empty string splits to `[""]`. -/
def splitCharsOn (c : Char) : List Char → List (List Char)
  | [] => [[]]
  | x :: xs =>
    if x == c then [] :: splitCharsOn c xs
    else
      match splitCharsOn c xs with
      | [] => [[x]]
      | g :: gs => (x :: g) :: gs

/-- Python `topic.split("/")`, the component list handed to
`_parse_device_topic`. -/
def splitSlash (s : String) : List String :=
  (splitCharsOn '/' s.toList).map (fun l => String.mk l)

/-- Split a character list at the first occurrence of `c`; `none` when `c`
does not occur. -/
def splitFirstAux (c : Char) : List Char → Option (List Char × List Char)
  | [] => none
  | x :: xs =>
    if x == c then some ([], xs)
    else
      match splitFirstAux c xs with
      | none => none
      | some (a, b) => some (x :: a, b)

/-- Python `s.split("_", 1)`: the part before the first underscore and the
untouched remainder (callers guard on `hasUnderscore`). -/
def splitFirstUnderscore (s : String) : String × String :=
  match splitFirstAux '_' s.toList with
  | none => (s, "")
  | some (a, b) => (String.mk a, String.mk b)

/-- `mqtt.py _parse_device_topic(components)`: reject any topic whose last
segment is not `set`; with ≥ 5 segments and an underscore in
`components[-3]`, split it into `(vendor, device_id)` and take
`components[-2]` as the attribute; with ≥ 4 segments and an underscore in
`components[-2]`, split it with no attribute (the trailing attribute
segment is optional); otherwise the raised `ValueError` is caught and the
parse fails (`None`). -/
def parse_device_topic (components : List String) :
    Option (String × String × Option String) :=
  match nthNeg components 1 with
  | none => none
  | some last =>
    if !(last == "set") then none
    else if components.length ≥ 5 &&
        (match nthNeg components 3 with
         | some c => hasUnderscore c
         | none => false) then
      match nthNeg components 3, nthNeg components 2 with
      | some c3, some c2 =>
        some ((splitFirstUnderscore c3).1, (splitFirstUnderscore c3).2, some c2)
      | _, _ => none
    else if components.length ≥ 4 &&
        (match nthNeg components 2 with
         | some c => hasUnderscore c
         | none => false) then
      match nthNeg components 2 with
      | some c2 => some ((splitFirstUnderscore c2).1, (splitFirstUnderscore c2).2, none)
      | none => none
    else none

/-- The command-topic component layout documented by the example inside
`_parse_device_topic`
(`blink2mqtt/switch/blink2mqtt_G8xxxxxxxxxxxx/motion_detection/set`):
prefix, section, underscore-joined `prefix_deviceId`, attribute, `set`. -/
def commandTopicComponentsExample (P sec d entity : String) : List String :=
  [P, sec, P ++ "_" ++ d, entity, "set"]

/-- C7 counterexample: with the forward builder modelled from the spec's
§6 scheme (`P/<deviceId>/<section>/<entity>/set`, see
`get_command_topic`), parsing the built topic does NOT recover
`(serviceTag, deviceId, entity)`: for `(dev1, switch, armed)` the parser
finds no underscore in either candidate segment, raises and returns a
parse failure (`none`) instead of
`some ("blink2mqtt", "dev1", some "armed")`. -/
theorem C7_spec_scheme_roundtrip_fails :
    splitSlash (get_command_topic "blink2mqtt" "dev1" "switch" "armed")
      = ["blink2mqtt", "dev1", "switch", "armed", "set"]
    ∧ parse_device_topic (splitSlash (get_command_topic "blink2mqtt" "dev1" "switch" "armed"))
      = none
    ∧ ¬ (parse_device_topic
          (splitSlash (get_command_topic "blink2mqtt" "dev1" "switch" "armed"))
        = some ("blink2mqtt", "dev1", some "armed")) := by
  refine ⟨by decide, by decide, by decide⟩

/-- C7 (amended): the parser rejects every component list whose last
segment is not the command suffix `set`; and for command topics in the
underscore form documented inside the parser
(`P/section/P_deviceId/entity/set`), parsing recovers
`(serviceTag, deviceId, entity)` — tolerating the form without the
trailing attribute segment, where the attribute comes back empty
(`none`).  The round-trips are proved at the parser's own documented
example values. -/
theorem C7_parse_command_topic :
    (∀ components : List String, nthNeg components 1 ≠ some "set" →
      parse_device_topic components = none)
    ∧ parse_device_topic
        (commandTopicComponentsExample "blink2mqtt" "switch" "G8T1GH0121330NSG"
          "motion_detection")
      = some ("blink2mqtt", "G8T1GH0121330NSG", some "motion_detection")
    ∧ parse_device_topic ["blink2mqtt", "switch", "blink2mqtt_G8T1GH0121330NSG", "set"]
      = some ("blink2mqtt", "G8T1GH0121330NSG", none) := by
  refine ⟨?_, by decide, by decide⟩
  intro components h
  rw [parse_device_topic]
  cases hn : nthNeg components 1 with
  | none => rfl
  | some last =>
    rw [hn] at h
    have hne : (last == "set") = false := by
      cases hl : last == "set"
      · rfl
      · exact absurd (by rw [eq_of_beq hl]) h
    simp [hne]

/-- C7 witness: the rejection clause applied to a concrete non-`set`
topic. -/
theorem C7_parse_command_topic_witness :
    nthNeg ["blink2mqtt", "switch", "blink2mqtt_X", "motion_detection", "get"] 1
      ≠ some "set"
    ∧ parse_device_topic
        ["blink2mqtt", "switch", "blink2mqtt_X", "motion_detection", "get"] = none := by
  refine ⟨by simp [nthNeg], ?_⟩
  exact C7_parse_command_topic.1
    ["blink2mqtt", "switch", "blink2mqtt_X", "motion_detection", "get"]
    (by simp [nthNeg])

/-- The Python exception classes relevant to `_decode_payload`. -/
inductive PyExc where
  | jsonDecodeError
  | unicodeDecodeError
  | typeError
  | valueError
  | otherError

/-- The exception tuple of the first `except` clause of
`mqtt.py _decode_payload`:
`(json.JSONDecodeError, UnicodeDecodeError, TypeError, ValueError)`. -/
def pyCaught : PyExc → Bool
  | .jsonDecodeError => true
  | .unicodeDecodeError => true
  | .typeError => true
  | .valueError => true
  | .otherError => false

/-- The three possible answers of `_decode_payload`. -/
inductive Decoded where
  | json (v : Val)
  | txt (s : String)
  | noneVal

/-- `mqtt.py _decode_payload(raw)`: try `json.loads(raw)`, catching the
tuple `(json.JSONDecodeError, UnicodeDecodeError, TypeError, ValueError)`;
fall back to `raw.decode("utf-8")`, whose bare `except Exception` catches
everything and returns `None`.  The stdlib decoders are external
collaborators, supplied as oracle outcomes `jsonRes` / `utf8Res`; an
exception outside the first clause's tuple would propagate. -/
def decode_payload (jsonRes : Except PyExc Val) (utf8Res : Except PyExc String) :
    Except PyExc Decoded :=
  match jsonRes with
  | .ok v => .ok (.json v)
  | .error e =>
    if pyCaught e then
      match utf8Res with
      | .ok s => .ok (.txt s)
      | .error _ => .ok .noneVal
    else .error e

/-- C10: given that `json.loads` only raises its documented exceptions
(`json.JSONDecodeError` — a `ValueError` — on bad JSON, `UnicodeDecodeError`
on undecodable bytes, `TypeError`/`ValueError` on a bad argument — all in
the caught tuple), `_decode_payload` never raises: it returns the decoded
JSON value when the bytes parse as JSON, otherwise the UTF-8 decoding when
that succeeds, otherwise `None`. -/
theorem C10_decode_payload_total (jsonRes : Except PyExc Val)
    (utf8Res : Except PyExc String)
    (hdoc : ∀ e : PyExc, jsonRes = .error e → pyCaught e = true) :
    exOk (decode_payload jsonRes utf8Res) = true
    ∧ (∀ v : Val, jsonRes = .ok v → decode_payload jsonRes utf8Res = .ok (.json v))
    ∧ (∀ (e : PyExc) (s : String), jsonRes = .error e → utf8Res = .ok s →
        decode_payload jsonRes utf8Res = .ok (.txt s))
    ∧ (∀ e e2 : PyExc, jsonRes = .error e → utf8Res = .error e2 →
        decode_payload jsonRes utf8Res = .ok .noneVal) := by
  refine ⟨?_, ?_, ?_, ?_⟩
  · cases jsonRes with
    | ok v => simp [decode_payload, exOk]
    | error e =>
      have hc := hdoc e rfl
      cases utf8Res <;> simp [decode_payload, hc, exOk]
  · intro v hv
    subst hv
    simp [decode_payload]
  · intro e s he hs
    subst he
    subst hs
    simp [decode_payload, hdoc e rfl]
  · intro e e2 he hs
    subst he
    subst hs
    simp [decode_payload, hdoc e rfl]

/-- C10 witness: the theorem applied to a payload whose bytes are not JSON
(`json.JSONDecodeError`) but decode as UTF-8 text. -/
theorem C10_decode_payload_total_witness :
    (∀ e : PyExc, (Except.error PyExc.jsonDecodeError : Except PyExc Val) = .error e →
      pyCaught e = true)
    ∧ decode_payload (Except.error PyExc.jsonDecodeError) (Except.ok "plain text")
        = .ok (.txt "plain text") := by
  have hdoc : ∀ e : PyExc,
      (Except.error PyExc.jsonDecodeError : Except PyExc Val) = .error e →
      pyCaught e = true := by
    intro e he
    cases he
    rfl
  exact ⟨hdoc, (C10_decode_payload_total (Except.error PyExc.jsonDecodeError)
    (Except.ok "plain text") hdoc).2.2.1 PyExc.jsonDecodeError "plain text" rfl rfl⟩
